import Mathlib

/-!
Shallow embedding of the reverse-mode automatic-differentiation runtime of
the gul repository.  Two C implementations are modelled:

* namespace `Stdlib` embeds the flat-tape implementation of
  src/compilers/shared/runtime/stdlib.c (MAX_TAPE_NODES, tape_add_node,
  gul_make_var, gul_var_add, gul_var_mul, gul_var_sin, gul_var_val,
  gul_var_grad, gul_backward, gul_run_backward, gul_autograd_begin,
  gul_autograd_end);
* namespace `GradGraph` embeds the pointer-graph implementation of
  src/compilers/shared/runtime/grad_graph.c (create_node, gul_make_var,
  gul_var_add, gul_var_sub, gul_var_mul, gul_var_div, gul_var_pow,
  backward_pass, gul_backward, gul_var_grad, gul_var_value,
  gul_grad_begin, gul_grad_end).

C `double` values are modelled by an arbitrary field with decidable
equality (the claims quantify over real inputs, and the only comparison
the C code performs on doubles is `n->grad == 0.0`).  The libm
primitives sin, cos and pow are opaque function parameters `sinF`,
`cosF`, `powF`.  The fixed capacities (`MAX_TAPE_NODES` 10000 in
stdlib.c, the initial 1024 of grad_graph.c) are threaded as a `cap`
parameter so that capacity behaviour can be stated for a session
configured with any bound, as the specification does.
-/

namespace Stdlib

/-- The OpType enum of stdlib.c.  OP_SUB, OP_DIV, OP_COS, OP_EXP, OP_LOG
and OP_POW are declared but no tape constructor produces them and
gul_run_backward's switch has no case for them (they hit `default:`). -/
inductive OpType where
  | OP_NONE | OP_ADD | OP_SUB | OP_MUL | OP_DIV | OP_SIN | OP_COS
  | OP_EXP | OP_LOG | OP_POW
  deriving DecidableEq, Repr

/-- The Node struct of stdlib.c: op, value, grad, parents[2] (-1 if
leaf/none).  The `computed` field is declared in C but never read or
written, so it is omitted. -/
structure Node (α : Type) where
  op : OpType
  value : α
  grad : α
  parents : Int × Int
  deriving Repr

/-- The Tape struct of stdlib.c.  `nodes` models the prefix
nodes[0..count-1] of the fixed C array (slots at or above `count` are
never read before being rewritten by tape_add_node, so only that prefix
is observable); `count = nodes.length`. -/
structure Tape (α : Type) where
  nodes : List (Node α)
  active : Bool
  deriving Repr

/-- The ScalarVar struct of stdlib.c, the record a handle points at.
stdlib.c never frees a ScalarVar, so the record outlives the session. -/
structure ScalarVar (α : Type) where
  value : α
  index : Int
  deriving Repr

/-- MAX_TAPE_NODES of stdlib.c. -/
def MAX_TAPE_NODES : Nat := 10000

variable {α : Type} [Field α] [DecidableEq α]

/-- Out-of-range default used with List.getD; every C array read modelled
below is in range, so this default is never the value actually read. -/
def dummyNode : Node α :=
  { op := OpType.OP_NONE, value := 0, grad := 0, parents := (-1, -1) }

/-- The initial value of the C global `Tape global_tape = {.count = 0,
.active = 0}`. -/
def initTape : Tape α := { nodes := [], active := false }

/-- gul_autograd_begin of stdlib.c: count = 0, active = 1. -/
def gul_autograd_begin (_t : Tape α) : Tape α := { nodes := [], active := true }

/-- gul_autograd_end of stdlib.c: active = 0. -/
def gul_autograd_end (t : Tape α) : Tape α := { t with active := false }

/-- tape_add_node of stdlib.c; returns the C int result (the new index, or
-1 when the tape is inactive or full) together with the updated tape. -/
def tape_add_node (cap : Nat) (op : OpType) (val : α) (p1 p2 : Int)
    (t : Tape α) : Int × Tape α :=
  if !t.active then (-1, t)
  else if cap ≤ t.nodes.length then (-1, t)
  else ((t.nodes.length : Int),
    { t with nodes :=
        t.nodes ++ [{ op := op, value := val, grad := 0, parents := (p1, p2) }] })

/-- gul_make_var of stdlib.c (tape version): allocates a ScalarVar; while
the tape is active its index is tape_add_node(OP_NONE, val, -1, -1),
otherwise -1. -/
def gul_make_var (cap : Nat) (val : α) (t : Tape α) : ScalarVar α × Tape α :=
  if t.active then
    let r := tape_add_node cap OpType.OP_NONE val (-1) (-1) t
    ({ value := val, index := r.1 }, r.2)
  else ({ value := val, index := -1 }, t)

/-- gul_var_val of stdlib.c.  (The C null-handle check returns 0; handles
are modelled as the records themselves, so only the non-null case arises.) -/
def gul_var_val (v : ScalarVar α) : α := v.value

/-- gul_var_grad of stdlib.c: the tape grad at the handle's index when
that index lies inside the current tape, else 0. -/
def gul_var_grad (v : ScalarVar α) (t : Tape α) : α :=
  if 0 ≤ v.index ∧ v.index < (t.nodes.length : Int) then
    (t.nodes.getD v.index.toNat dummyNode).grad
  else 0

/-- gul_var_add of stdlib.c: forward value a+b; gul_make_var appends an
OP_NONE node first, then, when the tape is active and both operands have
tape indices, the result index is overwritten with a fresh OP_ADD node. -/
def gul_var_add (cap : Nat) (a b : ScalarVar α) (t : Tape α) :
    ScalarVar α × Tape α :=
  let val := a.value + b.value
  let r := gul_make_var cap val t
  if r.2.active ∧ 0 ≤ a.index ∧ 0 ≤ b.index then
    let r2 := tape_add_node cap OpType.OP_ADD val a.index b.index r.2
    ({ value := val, index := r2.1 }, r2.2)
  else r

/-- gul_var_mul of stdlib.c (same shape as gul_var_add). -/
def gul_var_mul (cap : Nat) (a b : ScalarVar α) (t : Tape α) :
    ScalarVar α × Tape α :=
  let val := a.value * b.value
  let r := gul_make_var cap val t
  if r.2.active ∧ 0 ≤ a.index ∧ 0 ≤ b.index then
    let r2 := tape_add_node cap OpType.OP_MUL val a.index b.index r.2
    ({ value := val, index := r2.1 }, r2.2)
  else r

/-- gul_var_sin of stdlib.c; `sinF` stands for libm sin. -/
def gul_var_sin (cap : Nat) (sinF : α → α) (a : ScalarVar α) (t : Tape α) :
    ScalarVar α × Tape α :=
  let val := sinF a.value
  let r := gul_make_var cap val t
  if r.2.active ∧ 0 ≤ a.index then
    let r2 := tape_add_node cap OpType.OP_SIN val a.index (-1) r.2
    ({ value := val, index := r2.1 }, r2.2)
  else r

/-- Write helper for `nodes[k].grad` updates (in range only; stdlib.c
only ever writes grads at indices that are valid parents or the root). -/
def modifyGrad (ns : List (Node α)) (k : Nat) (f : α → α) : List (Node α) :=
  match ns.get? k with
  | some n => ns.set k { n with grad := f n.grad }
  | none => ns

/-- The loop body of gul_run_backward for index i: skip when grad is 0,
otherwise dispatch on the op; only OP_ADD, OP_MUL and OP_SIN have cases,
everything else falls through the switch default.  `cosF` stands for
libm cos. -/
def backward_step (cosF : α → α) (i : Nat) (ns : List (Node α)) :
    List (Node α) :=
  let n := ns.getD i dummyNode
  if n.grad = 0 then ns
  else
    let g := n.grad
    let p1 := n.parents.1
    let p2 := n.parents.2
    match n.op with
    | OpType.OP_ADD =>
        let ns1 := if 0 ≤ p1 then modifyGrad ns p1.toNat (· + g) else ns
        if 0 ≤ p2 then modifyGrad ns1 p2.toNat (· + g) else ns1
    | OpType.OP_MUL =>
        let ns1 :=
          if 0 ≤ p1 then
            modifyGrad ns p1.toNat
              (· + g * (if 0 ≤ p2 then (ns.getD p2.toNat dummyNode).value else 0))
          else ns
        if 0 ≤ p2 then
          modifyGrad ns1 p2.toNat
            (· + g * (if 0 ≤ p1 then (ns1.getD p1.toNat dummyNode).value else 0))
        else ns1
    | OpType.OP_SIN =>
        if 0 ≤ p1 then
          modifyGrad ns p1.toNat
            (· + g * cosF ((ns.getD p1.toNat dummyNode).value))
        else ns
    | _ => ns

/-- The descending loop `for (i = root_idx; i >= 0; i--)` of
gul_run_backward: process index i, then i-1, ..., then 0. -/
def backward_loop (cosF : α → α) : Nat → List (Node α) → List (Node α)
  | 0, ns => backward_step cosF 0 ns
  | i + 1, ns => backward_loop cosF i (backward_step cosF (i + 1) ns)

/-- gul_run_backward of stdlib.c: bounds-check the root, assign its grad
to 1.0 (no other gradient is zeroed or otherwise touched beforehand),
then run the descending loop. -/
def gul_run_backward (cosF : α → α) (root_idx : Int) (t : Tape α) : Tape α :=
  if root_idx < 0 ∨ (t.nodes.length : Int) ≤ root_idx then t
  else
    { t with nodes :=
        (backward_loop cosF root_idx.toNat
          (modifyGrad t.nodes root_idx.toNat (fun _ => 1))) }

/-- gul_backward of stdlib.c (the handle wrapper). -/
def gul_backward (cosF : α → α) (root : ScalarVar α) (t : Tape α) : Tape α :=
  if 0 ≤ root.index then gul_run_backward cosF root.index t else t

end Stdlib

namespace GradGraph

/-- The GradOp enum of grad_graph.c.  OP_EXP, OP_LOG, OP_SIN, OP_COS and
OP_MATMUL are declared but have no constructor and no backward_pass case. -/
inductive GradOp where
  | OP_CONSTANT | OP_ADD | OP_MUL | OP_SUB | OP_DIV | OP_POW
  | OP_EXP | OP_LOG | OP_SIN | OP_COS | OP_MATMUL
  deriving DecidableEq, Repr

/-- The GraphNode struct of grad_graph.c.  `left`/`right` are heap
addresses (pointers), `none` standing for NULL.  The `visited` field is
declared "For topological sort", is initialized to 0 by create_node, and
is never read or written anywhere else in grad_graph.c. -/
structure GraphNode (α : Type) where
  id : Nat
  op : GradOp
  value : α
  grad : α
  left : Option Nat
  right : Option Nat
  requires_grad : Bool
  visited : Bool
  deriving Repr

/-- The ComputationalGraph struct of grad_graph.c: the nodes array is the
list of heap addresses of the recorded nodes (node_count = length). -/
structure GraphCtx where
  nodes : List Nat
  capacity : Nat
  is_recording : Bool
  deriving Repr

/-- Global state: the malloc heap (all GraphNode allocations in order, so
a handle/pointer is an index into `heap`) plus the `global_graph`
pointer, NULL modelled as `none`. -/
structure GraphState (α : Type) where
  heap : List (GraphNode α)
  ctx : Option GraphCtx
  deriving Repr

/-- The initial capacity 1024 that gul_grad_begin configures. -/
def GRAD_INITIAL_CAPACITY : Nat := 1024

variable {α : Type} [Field α] [DecidableEq α]

/-- Out-of-range default for heap reads; every dereference modelled below
is of a live address, so this default is never the value actually read. -/
def dummyGraphNode : GraphNode α :=
  { id := 0, op := GradOp.OP_CONSTANT, value := 0, grad := 0,
    left := none, right := none, requires_grad := false, visited := false }

def heapGet (h : List (GraphNode α)) (a : Nat) : GraphNode α :=
  h.getD a dummyGraphNode

def heapModify (h : List (GraphNode α)) (a : Nat)
    (f : GraphNode α → GraphNode α) : List (GraphNode α) :=
  match h.get? a with
  | some n => h.set a (f n)
  | none => h

/-- The initial state: `global_graph` is the NULL pointer. -/
def initState : GraphState α := { heap := [], ctx := none }

/-- gul_grad_begin of grad_graph.c with the configured initial capacity as
a parameter (the C code passes 1024).  The C code frees the previous
graph's nodes; freed cells are modelled as left in place on the heap —
no theorem below reads a freed node through a stale pointer, since doing
so is undefined behaviour in C. -/
def gul_grad_begin (cap0 : Nat) (st : GraphState α) : GraphState α :=
  { heap := st.heap,
    ctx := some { nodes := [], capacity := cap0, is_recording := true } }

/-- gul_grad_end of grad_graph.c (frees everything, global_graph = NULL). -/
def gul_grad_end (st : GraphState α) : GraphState α :=
  { heap := st.heap, ctx := none }

/-- create_node of grad_graph.c.  Returns the address of the new node and
the updated state.

When no graph exists or recording is off, the C code mallocs a node and
sets only value, grad and requires_grad, leaving op, left, right, id and
visited uninitialized; the model fills those fields with fixed defaults
(OP_CONSTANT, NULL, NULL, 0, 0) and no theorem below depends on an
uninitialized field of such a dummy node.

When recording, note that on reaching capacity the C code doubles
`capacity` (realloc) and appends anyway: the session grows and tracking
continues. -/
def create_node (op : GradOp) (value : α) (left right : Option Nat)
    (st : GraphState α) : Nat × GraphState α :=
  match st.ctx with
  | none =>
      (st.heap.length,
        { st with heap := st.heap ++
            [{ id := 0, op := GradOp.OP_CONSTANT, value := value, grad := 0,
               left := none, right := none, requires_grad := false,
               visited := false }] })
  | some c =>
      if c.is_recording then
        let rg :=
          (match left with
            | some l => (heapGet st.heap l).requires_grad
            | none => false) ||
          (match right with
            | some r => (heapGet st.heap r).requires_grad
            | none => false)
        let node : GraphNode α :=
          { id := c.nodes.length, op := op, value := value, grad := 0,
            left := left, right := right, requires_grad := rg,
            visited := false }
        let newCap := if c.capacity ≤ c.nodes.length then c.capacity * 2
          else c.capacity
        (st.heap.length,
          { heap := st.heap ++ [node],
            ctx := some { nodes := c.nodes ++ [st.heap.length],
                          capacity := newCap, is_recording := true } })
      else
        (st.heap.length,
          { st with heap := st.heap ++
              [{ id := 0, op := GradOp.OP_CONSTANT, value := value, grad := 0,
                 left := none, right := none, requires_grad := false,
                 visited := false }] })

/-- gul_make_var of grad_graph.c: a constant node whose requires_grad is
then forced to 1 (also on the dummy node created while not recording). -/
def gul_make_var (value : α) (st : GraphState α) : Nat × GraphState α :=
  let r := create_node GradOp.OP_CONSTANT value none none st
  (r.1, { r.2 with heap :=
    (heapModify r.2.heap r.1 (fun n => { n with requires_grad := true })) })

/-- gul_var_add of grad_graph.c. -/
def gul_var_add (a b : Nat) (st : GraphState α) : Nat × GraphState α :=
  create_node GradOp.OP_ADD
    ((heapGet st.heap a).value + (heapGet st.heap b).value)
    (some a) (some b) st

/-- gul_var_mul of grad_graph.c. -/
def gul_var_mul (a b : Nat) (st : GraphState α) : Nat × GraphState α :=
  create_node GradOp.OP_MUL
    ((heapGet st.heap a).value * (heapGet st.heap b).value)
    (some a) (some b) st

/-- gul_var_sub of grad_graph.c. -/
def gul_var_sub (a b : Nat) (st : GraphState α) : Nat × GraphState α :=
  create_node GradOp.OP_SUB
    ((heapGet st.heap a).value - (heapGet st.heap b).value)
    (some a) (some b) st

/-- gul_var_div of grad_graph.c. -/
def gul_var_div (a b : Nat) (st : GraphState α) : Nat × GraphState α :=
  create_node GradOp.OP_DIV
    ((heapGet st.heap a).value / (heapGet st.heap b).value)
    (some a) (some b) st

/-- gul_var_pow of grad_graph.c; `powF` stands for libm pow. -/
def gul_var_pow (powF : α → α → α) (a b : Nat) (st : GraphState α) :
    Nat × GraphState α :=
  create_node GradOp.OP_POW
    (powF (heapGet st.heap a).value (heapGet st.heap b).value)
    (some a) (some b) st

/-- The switch of backward_pass: the chain-rule contribution of the node
at `addr` into its operands' grad accumulators.  Reads are performed on
the current heap statement by statement, exactly as the C statements do.
For OP_MUL, OP_DIV and OP_POW the C code dereferences the sibling
operand unguarded (node->right->value resp. node->left->value); recorded
nodes of these ops always carry both operands, and in the impossible
NULL case (undefined behaviour in C) the model reads 0. -/
def backward_step (powF : α → α → α) (addr : Nat)
    (h : List (GraphNode α)) : List (GraphNode α) :=
  let n := heapGet h addr
  match n.op with
  | GradOp.OP_ADD =>
      let h1 := match n.left with
        | some l => heapModify h l
            (fun m => { m with grad := m.grad + (heapGet h addr).grad })
        | none => h
      (match n.right with
        | some r => heapModify h1 r
            (fun m => { m with grad := m.grad + (heapGet h1 addr).grad })
        | none => h1)
  | GradOp.OP_MUL =>
      let rv := match n.right with
        | some r => (heapGet h r).value
        | none => 0
      let h1 := match n.left with
        | some l => heapModify h l
            (fun m => { m with grad := m.grad + (heapGet h addr).grad * rv })
        | none => h
      let lv := match n.left with
        | some l => (heapGet h1 l).value
        | none => 0
      (match n.right with
        | some r => heapModify h1 r
            (fun m => { m with grad := m.grad + (heapGet h1 addr).grad * lv })
        | none => h1)
  | GradOp.OP_SUB =>
      let h1 := match n.left with
        | some l => heapModify h l
            (fun m => { m with grad := m.grad + (heapGet h addr).grad })
        | none => h
      (match n.right with
        | some r => heapModify h1 r
            (fun m => { m with grad := m.grad - (heapGet h1 addr).grad })
        | none => h1)
  | GradOp.OP_DIV =>
      let rv := match n.right with
        | some r => (heapGet h r).value
        | none => 0
      let h1 := match n.left with
        | some l => heapModify h l
            (fun m => { m with grad := m.grad + (heapGet h addr).grad / rv })
        | none => h
      let lv := match n.left with
        | some l => (heapGet h1 l).value
        | none => 0
      let rv2 := match n.right with
        | some r => (heapGet h1 r).value
        | none => 0
      (match n.right with
        | some r => heapModify h1 r
            (fun m => { m with grad :=
              m.grad - (heapGet h1 addr).grad * lv / (rv2 * rv2) })
        | none => h1)
  | GradOp.OP_POW =>
      let rv := match n.right with
        | some r => (heapGet h r).value
        | none => 0
      let lv := match n.left with
        | some l => (heapGet h l).value
        | none => 0
      (match n.left with
        | some l => heapModify h l
            (fun m => { m with grad :=
              m.grad + (heapGet h addr).grad * rv * powF lv (rv - 1) })
        | none => h)
  | GradOp.OP_CONSTANT => h
  | _ => h

/-- backward_pass of grad_graph.c: guard on NULL / requires_grad, apply
the chain-rule switch, then recurse into left and then right — with no
visited check, so a node reachable twice is descended into twice.  The C
function recurses on pointers; operand addresses are strictly smaller
than the node's own address, so a fuel of heap size bounds the depth in
every use below (fuel is never exhausted there). -/
def backward_pass (powF : α → α → α) :
    Nat → Nat → List (GraphNode α) → List (GraphNode α)
  | 0, _, h => h
  | fuel + 1, addr, h =>
      match h.get? addr with
      | none => h
      | some n =>
          if n.requires_grad then
            let h1 := backward_step powF addr h
            let h2 := match (heapGet h1 addr).left with
              | some l => backward_pass powF fuel l h1
              | none => h1
            (match (heapGet h2 addr).right with
              | some r => backward_pass powF fuel r h2
              | none => h2)
          else h

/-- gul_backward of grad_graph.c: set the output grad to 1.0 (nothing is
zeroed beforehand) and run backward_pass from it. -/
def gul_backward (powF : α → α → α) (output : Nat) (st : GraphState α) :
    GraphState α :=
  let h1 := heapModify st.heap output (fun m => { m with grad := 1 })
  { st with heap := backward_pass powF h1.length output h1 }

/-- gul_var_grad of grad_graph.c.  (The C null check returns 0; handles
are live heap addresses here.) -/
def gul_var_grad (a : Nat) (st : GraphState α) : α := (heapGet st.heap a).grad

/-- gul_var_value of grad_graph.c. -/
def gul_var_value (a : Nat) (st : GraphState α) : α :=
  (heapGet st.heap a).value

end GradGraph

namespace Stdlib

variable {α : Type} [Field α] [DecidableEq α]

/-- backward_step without the `if (n->grad == 0.0) continue;` shortcut.
Skipping a zero-grad node only ever skips adding zero-valued
contributions, so this agrees with backward_step everywhere
(`backward_step_eq_noCheck` below); the claims' symbolic computations
go through this form. -/
def backward_stepNC (cosF : α → α) (i : Nat) (ns : List (Node α)) :
    List (Node α) :=
  let n := ns.getD i dummyNode
  let g := n.grad
  let p1 := n.parents.1
  let p2 := n.parents.2
  match n.op with
  | OpType.OP_ADD =>
      let ns1 := if 0 ≤ p1 then modifyGrad ns p1.toNat (· + g) else ns
      if 0 ≤ p2 then modifyGrad ns1 p2.toNat (· + g) else ns1
  | OpType.OP_MUL =>
      let ns1 :=
        if 0 ≤ p1 then
          modifyGrad ns p1.toNat
            (· + g * (if 0 ≤ p2 then (ns.getD p2.toNat dummyNode).value else 0))
        else ns
      if 0 ≤ p2 then
        modifyGrad ns1 p2.toNat
          (· + g * (if 0 ≤ p1 then (ns1.getD p1.toNat dummyNode).value else 0))
      else ns1
  | OpType.OP_SIN =>
      if 0 ≤ p1 then
        modifyGrad ns p1.toNat
          (· + g * cosF ((ns.getD p1.toNat dummyNode).value))
      else ns
  | _ => ns

/-- The descending loop over backward_stepNC. -/
def backward_loopNC (cosF : α → α) : Nat → List (Node α) → List (Node α)
  | 0, ns => backward_stepNC cosF 0 ns
  | i + 1, ns => backward_loopNC cosF i (backward_stepNC cosF (i + 1) ns)

/-- The shared-subexpression program of the specification, run on the
flat tape: begin; x; y; s = add(x, y); z = mul(s, s); backward(z).
Returns the handles of x, y, s, z and the final tape. -/
def tapeSharedProg (cosF : α → α) (x y : α) :
    (ScalarVar α × ScalarVar α × ScalarVar α × ScalarVar α) × Tape α :=
  let cap := MAX_TAPE_NODES
  let t0 := gul_autograd_begin (initTape (α := α))
  let r1 := gul_make_var cap x t0
  let r2 := gul_make_var cap y r1.2
  let r3 := gul_var_add cap r1.1 r2.1 r2.2
  let r4 := gul_var_mul cap r3.1 r3.1 r3.2
  ((r1.1, r2.1, r3.1, r4.1), gul_backward cosF r4.1 r4.2)

/-- z = add(x, y) on the flat tape with backward(z) run once and then a
second time; returns x's handle and the tapes after the first and the
second backward call. -/
def tapeDoubleBackwardProg (cosF : α → α) (x y : α) :
    ScalarVar α × Tape α × Tape α :=
  let cap := MAX_TAPE_NODES
  let t0 := gul_autograd_begin (initTape (α := α))
  let r1 := gul_make_var cap x t0
  let r2 := gul_make_var cap y r1.2
  let r3 := gul_var_add cap r1.1 r2.1 r2.2
  let t1 := gul_backward cosF r3.1 r3.2
  let t2 := gul_backward cosF r3.1 t1
  (r1.1, t1, t2)

/-- Stale-handle program: session one records x = a, y = b, s = add(x, y);
then a second gul_autograd_begin starts session two, which records one
variable c and runs backward on it.  Returns x's (stale) handle, the
tape right after the second begin, and the final tape. -/
def tapeStaleProg (cosF : α → α) (a b c : α) :
    ScalarVar α × Tape α × Tape α :=
  let cap := MAX_TAPE_NODES
  let t0 := gul_autograd_begin (initTape (α := α))
  let r1 := gul_make_var cap a t0
  let r2 := gul_make_var cap b r1.2
  let r3 := gul_var_add cap r1.1 r2.1 r2.2
  let t1 := gul_autograd_begin r3.2
  let r4 := gul_make_var cap c t1
  (r1.1, t1, gul_backward cosF r4.1 r4.2)

/-- Both-operands-untracked program: a and b are created while the tape
is inactive, a session is then begun and add(a, b) is performed inside
it; backward is run on the result.  Returns the result handle and the
final tape. -/
def tapeUntrackedAddProg (cosF : α → α) (a b : α) :
    ScalarVar α × Tape α :=
  let cap := MAX_TAPE_NODES
  let r1 := gul_make_var cap a (initTape (α := α))
  let r2 := gul_make_var cap b r1.2
  let t1 := gul_autograd_begin r2.2
  let r3 := gul_var_add cap r1.1 r2.1 t1
  (r3.1, gul_backward cosF r3.1 r3.2)

/-- One call of the flat-tape API inside a recording session, as emitted
by the compiler: leaf creation, the three tracked operators of stdlib.c,
or a backward call.  Operand positions refer to previously returned
handles. -/
inductive Act (α : Type) where
  | makeVar (v : α)
  | addV (i j : Nat)
  | mulV (i j : Nat)
  | sinV (i : Nat)
  | backwardV (i : Nat)

/-- The session state visible to a client: the tape plus the handles
returned so far (the environment of ScalarVar records). -/
structure TraceState (α : Type) where
  tape : Tape α
  env : List (ScalarVar α)

/-- Execute one API call.  Handle references outside the environment act
as the untracked handle (value 0, index -1). -/
def stepAct (cap : Nat) (cosF sinF : α → α) (st : TraceState α)
    (a : Act α) : TraceState α :=
  match a with
  | Act.makeVar v =>
      let r := gul_make_var cap v st.tape
      { tape := r.2, env := st.env ++ [r.1] }
  | Act.addV i j =>
      let r := gul_var_add cap (st.env.getD i { value := 0, index := -1 })
        (st.env.getD j { value := 0, index := -1 }) st.tape
      { tape := r.2, env := st.env ++ [r.1] }
  | Act.mulV i j =>
      let r := gul_var_mul cap (st.env.getD i { value := 0, index := -1 })
        (st.env.getD j { value := 0, index := -1 }) st.tape
      { tape := r.2, env := st.env ++ [r.1] }
  | Act.sinV i =>
      let r := gul_var_sin cap sinF (st.env.getD i { value := 0, index := -1 })
        st.tape
      { tape := r.2, env := st.env ++ [r.1] }
  | Act.backwardV i =>
      { tape := gul_backward cosF (st.env.getD i { value := 0, index := -1 })
          st.tape,
        env := st.env }

/-- Run a single-session call sequence: gul_autograd_begin on the pristine
global tape, then the calls in order. -/
def runActs (cap : Nat) (cosF sinF : α → α) (acts : List (Act α)) :
    TraceState α :=
  acts.foldl (stepAct cap cosF sinF)
    { tape := gul_autograd_begin (initTape (α := α)), env := [] }

/-- Structural agreement: same length and same op/value/parents
everywhere; only gradients may differ. -/
def sameStruct (ns ms : List (Node α)) : Prop :=
  ms.length = ns.length ∧
  ∀ j : Nat, (ms.getD j dummyNode).op = (ns.getD j dummyNode).op ∧
    (ms.getD j dummyNode).value = (ns.getD j dummyNode).value ∧
    (ms.getD j dummyNode).parents = (ns.getD j dummyNode).parents


/-- Every handle's index lies below the current tape length. -/
def EnvWF (st : TraceState α) : Prop :=
  ∀ h2 ∈ st.env, h2.index < (st.tape.nodes.length : Int)

/-- Acyclicity: every node's parents have strictly smaller indices. -/
def ParWF (st : TraceState α) : Prop :=
  ∀ m : Nat, m < st.tape.nodes.length →
    (st.tape.nodes.getD m dummyNode).parents.1 < (m : Int) ∧
    (st.tape.nodes.getD m dummyNode).parents.2 < (m : Int)

/-- Every operation node (op ≠ OP_NONE) on the tape sits at q+1 where q
is the OP_NONE node its call's inner gul_make_var appended: that orphan
keeps gradient 0, carries no parents, is referenced by no handle of the
environment and by no node's parent entry. -/
def OrphanInv (st : TraceState α) : Prop :=
  ∀ p : Nat, p < st.tape.nodes.length →
    (st.tape.nodes.getD p dummyNode).op ≠ OpType.OP_NONE →
    ∃ q : Nat, p = q + 1 ∧
      (st.tape.nodes.getD q dummyNode).op = OpType.OP_NONE ∧
      (st.tape.nodes.getD q dummyNode).grad = 0 ∧
      (st.tape.nodes.getD q dummyNode).parents = (-1, -1) ∧
      (∀ h2 ∈ st.env, h2.index ≠ (q : Int)) ∧
      (∀ m : Nat, m < st.tape.nodes.length →
        (st.tape.nodes.getD m dummyNode).parents.1 ≠ (q : Int) ∧
        (st.tape.nodes.getD m dummyNode).parents.2 ≠ (q : Int))

/-- The single-session invariant: active tape, well-formed handles,
acyclic parents, and the orphan discipline. -/
def TapeInv (st : TraceState α) : Prop :=
  st.tape.active = true ∧ EnvWF st ∧ ParWF st ∧ OrphanInv st


end Stdlib

namespace GradGraph

variable {α : Type} [Field α] [DecidableEq α]

/-- The shared-subexpression program on the pointer graph: begin (at the
configured capacity 1024); x; y; s = add(x, y); z = mul(s, s);
backward(z).  Returns the addresses of x, y, s, z and the final state. -/
def graphSharedProg (powF : α → α → α) (x y : α) :
    (Nat × Nat × Nat × Nat) × GraphState α :=
  let st0 := gul_grad_begin GRAD_INITIAL_CAPACITY (initState (α := α))
  let r1 := gul_make_var x st0
  let r2 := gul_make_var y r1.2
  let r3 := gul_var_add r1.1 r2.1 r2.2
  let r4 := gul_var_mul r3.1 r3.1 r3.2
  ((r1.1, r2.1, r3.1, r4.1), gul_backward powF r4.1 r4.2)

/-- The division program of the specification on the pointer graph:
begin; a; b; q = div(a, b); backward(q).  Returns the addresses of a, b,
q and the final state. -/
def graphDivProg (powF : α → α → α) (av bv : α) :
    (Nat × Nat × Nat) × GraphState α :=
  let st0 := gul_grad_begin GRAD_INITIAL_CAPACITY (initState (α := α))
  let r1 := gul_make_var av st0
  let r2 := gul_make_var bv r1.2
  let r3 := gul_var_div r1.1 r2.1 r2.2
  ((r1.1, r2.1, r3.1), gul_backward powF r3.1 r3.2)

/-- Capacity program on the pointer graph: a session begun at capacity
cap0 receives two variables and their product.  Returns the addresses
and the final state. -/
def graphCapProg (cap0 : Nat) (a b : α) :
    (Nat × Nat × Nat) × GraphState α :=
  let st0 := gul_grad_begin cap0 (initState (α := α))
  let r1 := gul_make_var a st0
  let r2 := gul_make_var b r1.2
  let r3 := gul_var_mul r1.1 r2.1 r2.2
  ((r1.1, r2.1, r3.1), r3.2)

/-- Untracked-arithmetic program on the pointer graph: with no session at
all (global_graph is NULL), build a, b and r = add(a, b), then call
backward(r).  Returns r's address and the final state. -/
def graphUntrackedProg (powF : α → α → α) (a b : α) :
    Nat × GraphState α :=
  let r1 := gul_make_var a (initState (α := α))
  let r2 := gul_make_var b r1.2
  let r3 := gul_var_add r1.1 r2.1 r2.2
  (r3.1, gul_backward powF r3.1 r3.2)

end GradGraph

namespace Stdlib

variable {α : Type} [Field α] [DecidableEq α]

/-- Setting a list entry to the element already stored there is the
identity. -/
theorem set_get_self {β : Type} : ∀ (ns : List β) (k : Nat) (n : β),
    ns.get? k = some n → ns.set k n = ns := by
  intro ns
  induction ns with
  | nil => intro k n h; simp at h
  | cons a l ih =>
      intro k n h
      cases k with
      | zero => simp at h; simp [h]
      | succ k =>
          simp only [List.get?] at h
          simp [List.set, ih k n h]

omit [Field α] [DecidableEq α] in
theorem modifyGrad_id (ns : List (Node α)) (k : Nat) :
    modifyGrad ns k (fun g => g) = ns := by
  unfold modifyGrad
  cases h : ns.get? k with
  | none => rfl
  | some n => exact set_get_self ns k _ h

/-- The `grad == 0.0` shortcut of gul_run_backward never changes the
outcome of a loop iteration: a zero gradient only contributes zero. -/
theorem backward_step_eq_noCheck (cosF : α → α) (i : Nat)
    (ns : List (Node α)) :
    backward_step cosF i ns = backward_stepNC cosF i ns := by
  unfold backward_step backward_stepNC
  set n := ns.getD i dummyNode with hn
  by_cases h : n.grad = 0
  · rw [if_pos h]
    cases hop : n.op <;> simp [hop, h, modifyGrad_id, ite_self]
  · rw [if_neg h]

theorem backward_loop_eq_noCheck (cosF : α → α) :
    ∀ (i : Nat) (ns : List (Node α)),
    backward_loop cosF i ns = backward_loopNC cosF i ns := by
  intro i
  induction i with
  | zero =>
      intro ns
      simp [backward_loop, backward_loopNC, backward_step_eq_noCheck]
  | succ i ih =>
      intro ns
      simp [backward_loop, backward_loopNC, backward_step_eq_noCheck, ih]

theorem backward_loopNC_succ (cosF : α → α) (i : Nat) (ns : List (Node α)) :
    backward_loopNC cosF (i + 1) ns =
      backward_loopNC cosF i (backward_stepNC cosF (i + 1) ns) := rfl

theorem backward_loopNC_zero (cosF : α → α) (ns : List (Node α)) :
    backward_loopNC cosF 0 ns = backward_stepNC cosF 0 ns := rfl

/-- Full evaluation of the shared-subexpression program on the flat tape:
the final tape carries gradient 2·(x+y) (as the literal sum below) on
both leaves, and the shared node s was propagated into exactly once. -/
theorem tapeSharedProg_eq (cosF : α → α) (x y : α) :
    tapeSharedProg cosF x y =
      (({ value := x, index := 0 }, { value := y, index := 1 },
        { value := x + y, index := 3 },
        { value := (x + y) * (x + y), index := 5 }),
       { nodes :=
          [{ op := OpType.OP_NONE, value := x, grad := 0 + (0 + 1 * (x + y) + 1 * (x + y)), parents := (-1, -1) },
           { op := OpType.OP_NONE, value := y, grad := 0 + (0 + 1 * (x + y) + 1 * (x + y)), parents := (-1, -1) },
           { op := OpType.OP_NONE, value := x + y, grad := 0, parents := (-1, -1) },
           { op := OpType.OP_ADD, value := x + y, grad := 0 + 1 * (x + y) + 1 * (x + y), parents := (0, 1) },
           { op := OpType.OP_NONE, value := (x + y) * (x + y), grad := 0, parents := (-1, -1) },
           { op := OpType.OP_MUL, value := (x + y) * (x + y), grad := 1, parents := (3, 3) }],
         active := true }) := by
  have hfwd : tapeSharedProg cosF x y =
      (({ value := x, index := 0 }, { value := y, index := 1 },
        { value := x + y, index := 3 },
        { value := (x + y) * (x + y), index := 5 }),
       gul_backward cosF { value := (x + y) * (x + y), index := 5 }
        { nodes :=
           [{ op := OpType.OP_NONE, value := x, grad := 0, parents := (-1, -1) },
            { op := OpType.OP_NONE, value := y, grad := 0, parents := (-1, -1) },
            { op := OpType.OP_NONE, value := x + y, grad := 0, parents := (-1, -1) },
            { op := OpType.OP_ADD, value := x + y, grad := 0, parents := (0, 1) },
            { op := OpType.OP_NONE, value := (x + y) * (x + y), grad := 0, parents := (-1, -1) },
            { op := OpType.OP_MUL, value := (x + y) * (x + y), grad := 0, parents := (3, 3) }],
          active := true }) := by
    simp only [tapeSharedProg, gul_make_var, gul_var_add, gul_var_mul, tape_add_node,
      gul_autograd_begin, initTape, MAX_TAPE_NODES]
    norm_num
  rw [hfwd]
  have hroot : gul_backward cosF
      { value := (x + y) * (x + y), index := 5 }
      ({ nodes :=
          [{ op := OpType.OP_NONE, value := x, grad := 0, parents := (-1, -1) },
           { op := OpType.OP_NONE, value := y, grad := 0, parents := (-1, -1) },
           { op := OpType.OP_NONE, value := x + y, grad := 0, parents := (-1, -1) },
           { op := OpType.OP_ADD, value := x + y, grad := 0, parents := (0, 1) },
           { op := OpType.OP_NONE, value := (x + y) * (x + y), grad := 0, parents := (-1, -1) },
           { op := OpType.OP_MUL, value := (x + y) * (x + y), grad := 0, parents := (3, 3) }],
         active := true } : Tape α) =
      { nodes :=
          (backward_loop cosF 5
            [{ op := OpType.OP_NONE, value := x, grad := 0, parents := (-1, -1) },
             { op := OpType.OP_NONE, value := y, grad := 0, parents := (-1, -1) },
             { op := OpType.OP_NONE, value := x + y, grad := 0, parents := (-1, -1) },
             { op := OpType.OP_ADD, value := x + y, grad := 0, parents := (0, 1) },
             { op := OpType.OP_NONE, value := (x + y) * (x + y), grad := 0, parents := (-1, -1) },
             { op := OpType.OP_MUL, value := (x + y) * (x + y), grad := 1, parents := (3, 3) }]),
        active := true } := rfl
  rw [hroot, backward_loop_eq_noCheck]
  have s5 : backward_stepNC cosF 5
      [{ op := OpType.OP_NONE, value := x, grad := 0, parents := (-1, -1) },
       { op := OpType.OP_NONE, value := y, grad := 0, parents := (-1, -1) },
       { op := OpType.OP_NONE, value := x + y, grad := 0, parents := (-1, -1) },
       { op := OpType.OP_ADD, value := x + y, grad := 0, parents := (0, 1) },
       { op := OpType.OP_NONE, value := (x + y) * (x + y), grad := 0, parents := (-1, -1) },
       { op := OpType.OP_MUL, value := (x + y) * (x + y), grad := 1, parents := (3, 3) }] =
      [{ op := OpType.OP_NONE, value := x, grad := 0, parents := (-1, -1) },
       { op := OpType.OP_NONE, value := y, grad := 0, parents := (-1, -1) },
       { op := OpType.OP_NONE, value := x + y, grad := 0, parents := (-1, -1) },
       { op := OpType.OP_ADD, value := x + y, grad := 0 + 1 * (x + y) + 1 * (x + y), parents := (0, 1) },
       { op := OpType.OP_NONE, value := (x + y) * (x + y), grad := 0, parents := (-1, -1) },
       { op := OpType.OP_MUL, value := (x + y) * (x + y), grad := 1, parents := (3, 3) }] := rfl
  have s4 : backward_stepNC cosF 4
      [{ op := OpType.OP_NONE, value := x, grad := 0, parents := (-1, -1) },
       { op := OpType.OP_NONE, value := y, grad := 0, parents := (-1, -1) },
       { op := OpType.OP_NONE, value := x + y, grad := 0, parents := (-1, -1) },
       { op := OpType.OP_ADD, value := x + y, grad := 0 + 1 * (x + y) + 1 * (x + y), parents := (0, 1) },
       { op := OpType.OP_NONE, value := (x + y) * (x + y), grad := 0, parents := (-1, -1) },
       { op := OpType.OP_MUL, value := (x + y) * (x + y), grad := 1, parents := (3, 3) }] =
      [{ op := OpType.OP_NONE, value := x, grad := 0, parents := (-1, -1) },
       { op := OpType.OP_NONE, value := y, grad := 0, parents := (-1, -1) },
       { op := OpType.OP_NONE, value := x + y, grad := 0, parents := (-1, -1) },
       { op := OpType.OP_ADD, value := x + y, grad := 0 + 1 * (x + y) + 1 * (x + y), parents := (0, 1) },
       { op := OpType.OP_NONE, value := (x + y) * (x + y), grad := 0, parents := (-1, -1) },
       { op := OpType.OP_MUL, value := (x + y) * (x + y), grad := 1, parents := (3, 3) }] := rfl
  have s3 : backward_stepNC cosF 3
      [{ op := OpType.OP_NONE, value := x, grad := 0, parents := (-1, -1) },
       { op := OpType.OP_NONE, value := y, grad := 0, parents := (-1, -1) },
       { op := OpType.OP_NONE, value := x + y, grad := 0, parents := (-1, -1) },
       { op := OpType.OP_ADD, value := x + y, grad := 0 + 1 * (x + y) + 1 * (x + y), parents := (0, 1) },
       { op := OpType.OP_NONE, value := (x + y) * (x + y), grad := 0, parents := (-1, -1) },
       { op := OpType.OP_MUL, value := (x + y) * (x + y), grad := 1, parents := (3, 3) }] =
      [{ op := OpType.OP_NONE, value := x, grad := 0 + (0 + 1 * (x + y) + 1 * (x + y)), parents := (-1, -1) },
       { op := OpType.OP_NONE, value := y, grad := 0 + (0 + 1 * (x + y) + 1 * (x + y)), parents := (-1, -1) },
       { op := OpType.OP_NONE, value := x + y, grad := 0, parents := (-1, -1) },
       { op := OpType.OP_ADD, value := x + y, grad := 0 + 1 * (x + y) + 1 * (x + y), parents := (0, 1) },
       { op := OpType.OP_NONE, value := (x + y) * (x + y), grad := 0, parents := (-1, -1) },
       { op := OpType.OP_MUL, value := (x + y) * (x + y), grad := 1, parents := (3, 3) }] := rfl
  have s2 : backward_stepNC cosF 2
      [{ op := OpType.OP_NONE, value := x, grad := 0 + (0 + 1 * (x + y) + 1 * (x + y)), parents := (-1, -1) },
       { op := OpType.OP_NONE, value := y, grad := 0 + (0 + 1 * (x + y) + 1 * (x + y)), parents := (-1, -1) },
       { op := OpType.OP_NONE, value := x + y, grad := 0, parents := (-1, -1) },
       { op := OpType.OP_ADD, value := x + y, grad := 0 + 1 * (x + y) + 1 * (x + y), parents := (0, 1) },
       { op := OpType.OP_NONE, value := (x + y) * (x + y), grad := 0, parents := (-1, -1) },
       { op := OpType.OP_MUL, value := (x + y) * (x + y), grad := 1, parents := (3, 3) }] =
      [{ op := OpType.OP_NONE, value := x, grad := 0 + (0 + 1 * (x + y) + 1 * (x + y)), parents := (-1, -1) },
       { op := OpType.OP_NONE, value := y, grad := 0 + (0 + 1 * (x + y) + 1 * (x + y)), parents := (-1, -1) },
       { op := OpType.OP_NONE, value := x + y, grad := 0, parents := (-1, -1) },
       { op := OpType.OP_ADD, value := x + y, grad := 0 + 1 * (x + y) + 1 * (x + y), parents := (0, 1) },
       { op := OpType.OP_NONE, value := (x + y) * (x + y), grad := 0, parents := (-1, -1) },
       { op := OpType.OP_MUL, value := (x + y) * (x + y), grad := 1, parents := (3, 3) }] := rfl
  have s1 : backward_stepNC cosF 1
      [{ op := OpType.OP_NONE, value := x, grad := 0 + (0 + 1 * (x + y) + 1 * (x + y)), parents := (-1, -1) },
       { op := OpType.OP_NONE, value := y, grad := 0 + (0 + 1 * (x + y) + 1 * (x + y)), parents := (-1, -1) },
       { op := OpType.OP_NONE, value := x + y, grad := 0, parents := (-1, -1) },
       { op := OpType.OP_ADD, value := x + y, grad := 0 + 1 * (x + y) + 1 * (x + y), parents := (0, 1) },
       { op := OpType.OP_NONE, value := (x + y) * (x + y), grad := 0, parents := (-1, -1) },
       { op := OpType.OP_MUL, value := (x + y) * (x + y), grad := 1, parents := (3, 3) }] =
      [{ op := OpType.OP_NONE, value := x, grad := 0 + (0 + 1 * (x + y) + 1 * (x + y)), parents := (-1, -1) },
       { op := OpType.OP_NONE, value := y, grad := 0 + (0 + 1 * (x + y) + 1 * (x + y)), parents := (-1, -1) },
       { op := OpType.OP_NONE, value := x + y, grad := 0, parents := (-1, -1) },
       { op := OpType.OP_ADD, value := x + y, grad := 0 + 1 * (x + y) + 1 * (x + y), parents := (0, 1) },
       { op := OpType.OP_NONE, value := (x + y) * (x + y), grad := 0, parents := (-1, -1) },
       { op := OpType.OP_MUL, value := (x + y) * (x + y), grad := 1, parents := (3, 3) }] := rfl
  have s0 : backward_stepNC cosF 0
      [{ op := OpType.OP_NONE, value := x, grad := 0 + (0 + 1 * (x + y) + 1 * (x + y)), parents := (-1, -1) },
       { op := OpType.OP_NONE, value := y, grad := 0 + (0 + 1 * (x + y) + 1 * (x + y)), parents := (-1, -1) },
       { op := OpType.OP_NONE, value := x + y, grad := 0, parents := (-1, -1) },
       { op := OpType.OP_ADD, value := x + y, grad := 0 + 1 * (x + y) + 1 * (x + y), parents := (0, 1) },
       { op := OpType.OP_NONE, value := (x + y) * (x + y), grad := 0, parents := (-1, -1) },
       { op := OpType.OP_MUL, value := (x + y) * (x + y), grad := 1, parents := (3, 3) }] =
      [{ op := OpType.OP_NONE, value := x, grad := 0 + (0 + 1 * (x + y) + 1 * (x + y)), parents := (-1, -1) },
       { op := OpType.OP_NONE, value := y, grad := 0 + (0 + 1 * (x + y) + 1 * (x + y)), parents := (-1, -1) },
       { op := OpType.OP_NONE, value := x + y, grad := 0, parents := (-1, -1) },
       { op := OpType.OP_ADD, value := x + y, grad := 0 + 1 * (x + y) + 1 * (x + y), parents := (0, 1) },
       { op := OpType.OP_NONE, value := (x + y) * (x + y), grad := 0, parents := (-1, -1) },
       { op := OpType.OP_MUL, value := (x + y) * (x + y), grad := 1, parents := (3, 3) }] := rfl
  rw [backward_loopNC_succ, s5, backward_loopNC_succ, s4, backward_loopNC_succ, s3,
    backward_loopNC_succ, s2, backward_loopNC_succ, s1, backward_loopNC_zero, s0]

/-- Full evaluation of z = add(x, y) with backward(z) run twice on the
flat tape: after the first call the leaf gradients are 1, after the
second they are 2 — nothing is zeroed between the calls. -/
theorem tapeDoubleBackwardProg_eq (cosF : α → α) (x y : α) :
    tapeDoubleBackwardProg cosF x y =
      ({ value := x, index := 0 },
       { nodes :=
          [{ op := OpType.OP_NONE, value := x, grad := 0 + 1, parents := (-1, -1) },
           { op := OpType.OP_NONE, value := y, grad := 0 + 1, parents := (-1, -1) },
           { op := OpType.OP_NONE, value := x + y, grad := 0, parents := (-1, -1) },
           { op := OpType.OP_ADD, value := x + y, grad := 1, parents := (0, 1) }],
         active := true },
       { nodes :=
          [{ op := OpType.OP_NONE, value := x, grad := 0 + 1 + 1, parents := (-1, -1) },
           { op := OpType.OP_NONE, value := y, grad := 0 + 1 + 1, parents := (-1, -1) },
           { op := OpType.OP_NONE, value := x + y, grad := 0, parents := (-1, -1) },
           { op := OpType.OP_ADD, value := x + y, grad := 1, parents := (0, 1) }],
         active := true }) := by
  have hfwd : tapeDoubleBackwardProg cosF x y =
      ({ value := x, index := 0 },
       gul_backward cosF { value := x + y, index := 3 }
        { nodes :=
           [{ op := OpType.OP_NONE, value := x, grad := 0, parents := (-1, -1) },
            { op := OpType.OP_NONE, value := y, grad := 0, parents := (-1, -1) },
            { op := OpType.OP_NONE, value := x + y, grad := 0, parents := (-1, -1) },
            { op := OpType.OP_ADD, value := x + y, grad := 0, parents := (0, 1) }],
          active := true },
       gul_backward cosF { value := x + y, index := 3 }
        (gul_backward cosF { value := x + y, index := 3 }
          { nodes :=
              [{ op := OpType.OP_NONE, value := x, grad := 0, parents := (-1, -1) },
               { op := OpType.OP_NONE, value := y, grad := 0, parents := (-1, -1) },
               { op := OpType.OP_NONE, value := x + y, grad := 0, parents := (-1, -1) },
               { op := OpType.OP_ADD, value := x + y, grad := 0, parents := (0, 1) }],
            active := true })) := by
    simp only [tapeDoubleBackwardProg, gul_make_var, gul_var_add, tape_add_node,
      gul_autograd_begin, initTape, MAX_TAPE_NODES]
    norm_num
  rw [hfwd]
  have hb1 : gul_backward cosF { value := x + y, index := 3 }
      ({ nodes :=
          [{ op := OpType.OP_NONE, value := x, grad := 0, parents := (-1, -1) },
           { op := OpType.OP_NONE, value := y, grad := 0, parents := (-1, -1) },
           { op := OpType.OP_NONE, value := x + y, grad := 0, parents := (-1, -1) },
           { op := OpType.OP_ADD, value := x + y, grad := 0, parents := (0, 1) }],
         active := true } : Tape α) =
      { nodes :=
          (backward_loop cosF 3
            [{ op := OpType.OP_NONE, value := x, grad := 0, parents := (-1, -1) },
             { op := OpType.OP_NONE, value := y, grad := 0, parents := (-1, -1) },
             { op := OpType.OP_NONE, value := x + y, grad := 0, parents := (-1, -1) },
             { op := OpType.OP_ADD, value := x + y, grad := 1, parents := (0, 1) }]),
        active := true } := rfl
  rw [hb1, backward_loop_eq_noCheck]
  have s3 : backward_stepNC cosF 3
      [{ op := OpType.OP_NONE, value := x, grad := 0, parents := (-1, -1) },
       { op := OpType.OP_NONE, value := y, grad := 0, parents := (-1, -1) },
       { op := OpType.OP_NONE, value := x + y, grad := 0, parents := (-1, -1) },
       { op := OpType.OP_ADD, value := x + y, grad := 1, parents := (0, 1) }] =
      [{ op := OpType.OP_NONE, value := x, grad := 0 + 1, parents := (-1, -1) },
       { op := OpType.OP_NONE, value := y, grad := 0 + 1, parents := (-1, -1) },
       { op := OpType.OP_NONE, value := x + y, grad := 0, parents := (-1, -1) },
       { op := OpType.OP_ADD, value := x + y, grad := 1, parents := (0, 1) }] := rfl
  have s2 : backward_stepNC cosF 2
      [{ op := OpType.OP_NONE, value := x, grad := 0 + 1, parents := (-1, -1) },
       { op := OpType.OP_NONE, value := y, grad := 0 + 1, parents := (-1, -1) },
       { op := OpType.OP_NONE, value := x + y, grad := 0, parents := (-1, -1) },
       { op := OpType.OP_ADD, value := x + y, grad := 1, parents := (0, 1) }] =
      [{ op := OpType.OP_NONE, value := x, grad := 0 + 1, parents := (-1, -1) },
       { op := OpType.OP_NONE, value := y, grad := 0 + 1, parents := (-1, -1) },
       { op := OpType.OP_NONE, value := x + y, grad := 0, parents := (-1, -1) },
       { op := OpType.OP_ADD, value := x + y, grad := 1, parents := (0, 1) }] := rfl
  have s1 : backward_stepNC cosF 1
      [{ op := OpType.OP_NONE, value := x, grad := 0 + 1, parents := (-1, -1) },
       { op := OpType.OP_NONE, value := y, grad := 0 + 1, parents := (-1, -1) },
       { op := OpType.OP_NONE, value := x + y, grad := 0, parents := (-1, -1) },
       { op := OpType.OP_ADD, value := x + y, grad := 1, parents := (0, 1) }] =
      [{ op := OpType.OP_NONE, value := x, grad := 0 + 1, parents := (-1, -1) },
       { op := OpType.OP_NONE, value := y, grad := 0 + 1, parents := (-1, -1) },
       { op := OpType.OP_NONE, value := x + y, grad := 0, parents := (-1, -1) },
       { op := OpType.OP_ADD, value := x + y, grad := 1, parents := (0, 1) }] := rfl
  have s0 : backward_stepNC cosF 0
      [{ op := OpType.OP_NONE, value := x, grad := 0 + 1, parents := (-1, -1) },
       { op := OpType.OP_NONE, value := y, grad := 0 + 1, parents := (-1, -1) },
       { op := OpType.OP_NONE, value := x + y, grad := 0, parents := (-1, -1) },
       { op := OpType.OP_ADD, value := x + y, grad := 1, parents := (0, 1) }] =
      [{ op := OpType.OP_NONE, value := x, grad := 0 + 1, parents := (-1, -1) },
       { op := OpType.OP_NONE, value := y, grad := 0 + 1, parents := (-1, -1) },
       { op := OpType.OP_NONE, value := x + y, grad := 0, parents := (-1, -1) },
       { op := OpType.OP_ADD, value := x + y, grad := 1, parents := (0, 1) }] := rfl
  rw [backward_loopNC_succ, s3, backward_loopNC_succ, s2,
    backward_loopNC_succ, s1, backward_loopNC_zero, s0]
  have hb2 : gul_backward cosF { value := x + y, index := 3 }
      ({ nodes :=
          [{ op := OpType.OP_NONE, value := x, grad := 0 + 1, parents := (-1, -1) },
           { op := OpType.OP_NONE, value := y, grad := 0 + 1, parents := (-1, -1) },
           { op := OpType.OP_NONE, value := x + y, grad := 0, parents := (-1, -1) },
           { op := OpType.OP_ADD, value := x + y, grad := 1, parents := (0, 1) }],
         active := true } : Tape α) =
      { nodes :=
          (backward_loop cosF 3
            [{ op := OpType.OP_NONE, value := x, grad := 0 + 1, parents := (-1, -1) },
             { op := OpType.OP_NONE, value := y, grad := 0 + 1, parents := (-1, -1) },
             { op := OpType.OP_NONE, value := x + y, grad := 0, parents := (-1, -1) },
             { op := OpType.OP_ADD, value := x + y, grad := 1, parents := (0, 1) }]),
        active := true } := rfl
  rw [hb2, backward_loop_eq_noCheck]
  have u3 : backward_stepNC cosF 3
      [{ op := OpType.OP_NONE, value := x, grad := 0 + 1, parents := (-1, -1) },
       { op := OpType.OP_NONE, value := y, grad := 0 + 1, parents := (-1, -1) },
       { op := OpType.OP_NONE, value := x + y, grad := 0, parents := (-1, -1) },
       { op := OpType.OP_ADD, value := x + y, grad := 1, parents := (0, 1) }] =
      [{ op := OpType.OP_NONE, value := x, grad := 0 + 1 + 1, parents := (-1, -1) },
       { op := OpType.OP_NONE, value := y, grad := 0 + 1 + 1, parents := (-1, -1) },
       { op := OpType.OP_NONE, value := x + y, grad := 0, parents := (-1, -1) },
       { op := OpType.OP_ADD, value := x + y, grad := 1, parents := (0, 1) }] := rfl
  have u2 : backward_stepNC cosF 2
      [{ op := OpType.OP_NONE, value := x, grad := 0 + 1 + 1, parents := (-1, -1) },
       { op := OpType.OP_NONE, value := y, grad := 0 + 1 + 1, parents := (-1, -1) },
       { op := OpType.OP_NONE, value := x + y, grad := 0, parents := (-1, -1) },
       { op := OpType.OP_ADD, value := x + y, grad := 1, parents := (0, 1) }] =
      [{ op := OpType.OP_NONE, value := x, grad := 0 + 1 + 1, parents := (-1, -1) },
       { op := OpType.OP_NONE, value := y, grad := 0 + 1 + 1, parents := (-1, -1) },
       { op := OpType.OP_NONE, value := x + y, grad := 0, parents := (-1, -1) },
       { op := OpType.OP_ADD, value := x + y, grad := 1, parents := (0, 1) }] := rfl
  have u1 : backward_stepNC cosF 1
      [{ op := OpType.OP_NONE, value := x, grad := 0 + 1 + 1, parents := (-1, -1) },
       { op := OpType.OP_NONE, value := y, grad := 0 + 1 + 1, parents := (-1, -1) },
       { op := OpType.OP_NONE, value := x + y, grad := 0, parents := (-1, -1) },
       { op := OpType.OP_ADD, value := x + y, grad := 1, parents := (0, 1) }] =
      [{ op := OpType.OP_NONE, value := x, grad := 0 + 1 + 1, parents := (-1, -1) },
       { op := OpType.OP_NONE, value := y, grad := 0 + 1 + 1, parents := (-1, -1) },
       { op := OpType.OP_NONE, value := x + y, grad := 0, parents := (-1, -1) },
       { op := OpType.OP_ADD, value := x + y, grad := 1, parents := (0, 1) }] := rfl
  have u0 : backward_stepNC cosF 0
      [{ op := OpType.OP_NONE, value := x, grad := 0 + 1 + 1, parents := (-1, -1) },
       { op := OpType.OP_NONE, value := y, grad := 0 + 1 + 1, parents := (-1, -1) },
       { op := OpType.OP_NONE, value := x + y, grad := 0, parents := (-1, -1) },
       { op := OpType.OP_ADD, value := x + y, grad := 1, parents := (0, 1) }] =
      [{ op := OpType.OP_NONE, value := x, grad := 0 + 1 + 1, parents := (-1, -1) },
       { op := OpType.OP_NONE, value := y, grad := 0 + 1 + 1, parents := (-1, -1) },
       { op := OpType.OP_NONE, value := x + y, grad := 0, parents := (-1, -1) },
       { op := OpType.OP_ADD, value := x + y, grad := 1, parents := (0, 1) }] := rfl
  rw [backward_loopNC_succ, u3, backward_loopNC_succ, u2,
    backward_loopNC_succ, u1, backward_loopNC_zero, u0]

/-- Full evaluation of the stale-handle program: the stale handle of x
keeps its ScalarVar record (value a, index 0); the tape is emptied by
the second begin; after session two records c at index 0 and runs
backward on it, tape slot 0 carries gradient 1. -/
theorem tapeStaleProg_eq (cosF : α → α) (a b c : α) :
    tapeStaleProg cosF a b c =
      ({ value := a, index := 0 },
       { nodes := [], active := true },
       { nodes := [{ op := OpType.OP_NONE, value := c, grad := 1, parents := (-1, -1) }],
         active := true }) := by
  have hfwd : tapeStaleProg cosF a b c =
      ({ value := a, index := 0 },
       { nodes := [], active := true },
       gul_backward cosF { value := c, index := 0 }
        { nodes := [{ op := OpType.OP_NONE, value := c, grad := 0, parents := (-1, -1) }],
          active := true }) := by
    simp only [tapeStaleProg, gul_make_var, gul_var_add, tape_add_node,
      gul_autograd_begin, initTape, MAX_TAPE_NODES]
    norm_num
  rw [hfwd]
  have hb : gul_backward cosF { value := c, index := 0 }
      ({ nodes := [{ op := OpType.OP_NONE, value := c, grad := 0, parents := (-1, -1) }],
         active := true } : Tape α) =
      { nodes :=
          (backward_loop cosF 0
            [{ op := OpType.OP_NONE, value := c, grad := 1, parents := (-1, -1) }]),
        active := true } := rfl
  have s0 : backward_stepNC cosF 0
      [{ op := OpType.OP_NONE, value := c, grad := 1, parents := (-1, -1) }] =
      [{ op := OpType.OP_NONE, value := c, grad := 1, parents := (-1, -1) }] := rfl
  rw [hb, backward_loop_eq_noCheck, backward_loopNC_zero, s0]

/-- Full evaluation of the both-operands-untracked add: while the session
is active the result still lands on the tape at index 0 as a parentless
OP_NONE node, and backward on it stamps gradient 1 there. -/
theorem tapeUntrackedAddProg_eq (cosF : α → α) (a b : α) :
    tapeUntrackedAddProg cosF a b =
      ({ value := a + b, index := 0 },
       { nodes := [{ op := OpType.OP_NONE, value := a + b, grad := 1, parents := (-1, -1) }],
         active := true }) := by
  have hfwd : tapeUntrackedAddProg cosF a b =
      ({ value := a + b, index := 0 },
       gul_backward cosF { value := a + b, index := 0 }
        { nodes := [{ op := OpType.OP_NONE, value := a + b, grad := 0, parents := (-1, -1) }],
          active := true }) := by
    simp only [tapeUntrackedAddProg, gul_make_var, gul_var_add, tape_add_node,
      gul_autograd_begin, initTape, MAX_TAPE_NODES]
    norm_num
  rw [hfwd]
  have hb : gul_backward cosF { value := a + b, index := 0 }
      ({ nodes := [{ op := OpType.OP_NONE, value := a + b, grad := 0, parents := (-1, -1) }],
         active := true } : Tape α) =
      { nodes :=
          (backward_loop cosF 0
            [{ op := OpType.OP_NONE, value := a + b, grad := 1, parents := (-1, -1) }]),
        active := true } := rfl
  have s0 : backward_stepNC cosF 0
      [{ op := OpType.OP_NONE, value := a + b, grad := 1, parents := (-1, -1) }] =
      [{ op := OpType.OP_NONE, value := a + b, grad := 1, parents := (-1, -1) }] := rfl
  rw [hb, backward_loop_eq_noCheck, backward_loopNC_zero, s0]

end Stdlib

namespace GradGraph

variable {α : Type} [Field α] [DecidableEq α]

/-- Unfolding backward_pass at a node whose requires_grad is false: the
guard returns immediately. -/
theorem backward_pass_notrg (powF : α → α → α) (fuel : Nat) (hfuel : fuel ≠ 0)
    (addr : Nat) (h : List (GraphNode α)) (n : GraphNode α)
    (hn : h[addr]? = some n) (hrg : n.requires_grad = false) :
    backward_pass powF fuel addr h = h := by
  obtain ⟨f, rfl⟩ : ∃ f, fuel = f + 1 :=
    ⟨fuel - 1, (Nat.succ_pred_eq_of_pos (Nat.pos_of_ne_zero hfuel)).symm⟩
  simp [backward_pass, hn, hrg]

/-- Unfolding backward_pass at a leaf (no operands) whose chain-rule
switch leaves the heap unchanged. -/
theorem backward_pass_leaf (powF : α → α → α) (fuel : Nat) (hfuel : fuel ≠ 0)
    (addr : Nat) (h : List (GraphNode α)) (n : GraphNode α)
    (hn : h[addr]? = some n) (hrg : n.requires_grad = true)
    (hstep : backward_step powF addr h = h)
    (hl : (heapGet h addr).left = none)
    (hr : (heapGet h addr).right = none) :
    backward_pass powF fuel addr h = h := by
  obtain ⟨f, rfl⟩ : ∃ f, fuel = f + 1 :=
    ⟨fuel - 1, (Nat.succ_pred_eq_of_pos (Nat.pos_of_ne_zero hfuel)).symm⟩
  simp [backward_pass, hn, hrg, hstep, hl, hr]

/-- Unfolding backward_pass at an inner node with both operands present:
apply the chain-rule switch, then recurse into left, then into right. -/
theorem backward_pass_node2 (powF : α → α → α) (fuel : Nat) (hfuel : fuel ≠ 0)
    (addr la ra : Nat) (h h1 h2 h3 : List (GraphNode α)) (n : GraphNode α)
    (hn : h[addr]? = some n) (hrg : n.requires_grad = true)
    (hstep : backward_step powF addr h = h1)
    (hl : (heapGet h1 addr).left = some la)
    (hrec1 : backward_pass powF (fuel - 1) la h1 = h2)
    (hr : (heapGet h2 addr).right = some ra)
    (hrec2 : backward_pass powF (fuel - 1) ra h2 = h3) :
    backward_pass powF fuel addr h = h3 := by
  obtain ⟨f, rfl⟩ : ∃ f, fuel = f + 1 :=
    ⟨fuel - 1, (Nat.succ_pred_eq_of_pos (Nat.pos_of_ne_zero hfuel)).symm⟩
  simp only [Nat.add_sub_cancel] at hrec1 hrec2
  simp [backward_pass, hn, hrg, hstep, hl, hrec1, hr, hrec2]

/-- Full evaluation of the shared-subexpression program on the pointer
graph: backward_pass descends into the shared node s once from each of
its two uses in z = s·s, so both leaves end with gradient 4·(x+y) (the
literal sum below), twice the correct derivative. -/
theorem graphSharedProg_eq (powF : α → α → α) (x y : α) :
    graphSharedProg powF x y =
      ((0, 1, 2, 3),
       { heap :=
          [{ id := 0, op := GradOp.OP_CONSTANT, value := x, grad := 0 + (0 + 1 * (x + y) + 1 * (x + y)) + (0 + 1 * (x + y) + 1 * (x + y)), left := none, right := none, requires_grad := true, visited := false },
           { id := 1, op := GradOp.OP_CONSTANT, value := y, grad := 0 + (0 + 1 * (x + y) + 1 * (x + y)) + (0 + 1 * (x + y) + 1 * (x + y)), left := none, right := none, requires_grad := true, visited := false },
           { id := 2, op := GradOp.OP_ADD, value := x + y, grad := 0 + 1 * (x + y) + 1 * (x + y), left := some 0, right := some 1, requires_grad := true, visited := false },
           { id := 3, op := GradOp.OP_MUL, value := (x + y) * (x + y), grad := 1, left := some 2, right := some 2, requires_grad := true, visited := false }],
         ctx := some { nodes := [0, 1, 2, 3], capacity := 1024,
                       is_recording := true } }) := by
  have hfwd : graphSharedProg powF x y =
      ((0, 1, 2, 3),
       gul_backward powF 3
        { heap :=
           [{ id := 0, op := GradOp.OP_CONSTANT, value := x, grad := 0, left := none, right := none, requires_grad := true, visited := false },
            { id := 1, op := GradOp.OP_CONSTANT, value := y, grad := 0, left := none, right := none, requires_grad := true, visited := false },
            { id := 2, op := GradOp.OP_ADD, value := x + y, grad := 0, left := some 0, right := some 1, requires_grad := true, visited := false },
            { id := 3, op := GradOp.OP_MUL, value := (x + y) * (x + y), grad := 0, left := some 2, right := some 2, requires_grad := true, visited := false }],
          ctx := some { nodes := [0, 1, 2, 3], capacity := 1024,
                        is_recording := true } }) := by
    simp only [graphSharedProg, gul_make_var, gul_var_add, gul_var_mul, create_node,
      gul_grad_begin, initState, heapGet, heapModify, GRAD_INITIAL_CAPACITY]
    norm_num
  rw [hfwd]
  have hroot : gul_backward powF 3
      ({ heap :=
          [{ id := 0, op := GradOp.OP_CONSTANT, value := x, grad := 0, left := none, right := none, requires_grad := true, visited := false },
           { id := 1, op := GradOp.OP_CONSTANT, value := y, grad := 0, left := none, right := none, requires_grad := true, visited := false },
           { id := 2, op := GradOp.OP_ADD, value := x + y, grad := 0, left := some 0, right := some 1, requires_grad := true, visited := false },
           { id := 3, op := GradOp.OP_MUL, value := (x + y) * (x + y), grad := 0, left := some 2, right := some 2, requires_grad := true, visited := false }],
         ctx := some { nodes := [0, 1, 2, 3], capacity := 1024,
                       is_recording := true } } : GraphState α) =
      { heap :=
          (backward_pass powF 4 3
            [{ id := 0, op := GradOp.OP_CONSTANT, value := x, grad := 0, left := none, right := none, requires_grad := true, visited := false },
             { id := 1, op := GradOp.OP_CONSTANT, value := y, grad := 0, left := none, right := none, requires_grad := true, visited := false },
             { id := 2, op := GradOp.OP_ADD, value := x + y, grad := 0, left := some 0, right := some 1, requires_grad := true, visited := false },
             { id := 3, op := GradOp.OP_MUL, value := (x + y) * (x + y), grad := 1, left := some 2, right := some 2, requires_grad := true, visited := false }]),
        ctx := some { nodes := [0, 1, 2, 3], capacity := 1024,
                      is_recording := true } } := rfl
  rw [hroot]
  have s3 : backward_step powF 3
      [{ id := 0, op := GradOp.OP_CONSTANT, value := x, grad := 0, left := none, right := none, requires_grad := true, visited := false },
       { id := 1, op := GradOp.OP_CONSTANT, value := y, grad := 0, left := none, right := none, requires_grad := true, visited := false },
       { id := 2, op := GradOp.OP_ADD, value := x + y, grad := 0, left := some 0, right := some 1, requires_grad := true, visited := false },
       { id := 3, op := GradOp.OP_MUL, value := (x + y) * (x + y), grad := 1, left := some 2, right := some 2, requires_grad := true, visited := false }] =
      [{ id := 0, op := GradOp.OP_CONSTANT, value := x, grad := 0, left := none, right := none, requires_grad := true, visited := false },
       { id := 1, op := GradOp.OP_CONSTANT, value := y, grad := 0, left := none, right := none, requires_grad := true, visited := false },
       { id := 2, op := GradOp.OP_ADD, value := x + y, grad := 0 + 1 * (x + y) + 1 * (x + y), left := some 0, right := some 1, requires_grad := true, visited := false },
       { id := 3, op := GradOp.OP_MUL, value := (x + y) * (x + y), grad := 1, left := some 2, right := some 2, requires_grad := true, visited := false }] := rfl
  have s2a : backward_step powF 2
      [{ id := 0, op := GradOp.OP_CONSTANT, value := x, grad := 0, left := none, right := none, requires_grad := true, visited := false },
       { id := 1, op := GradOp.OP_CONSTANT, value := y, grad := 0, left := none, right := none, requires_grad := true, visited := false },
       { id := 2, op := GradOp.OP_ADD, value := x + y, grad := 0 + 1 * (x + y) + 1 * (x + y), left := some 0, right := some 1, requires_grad := true, visited := false },
       { id := 3, op := GradOp.OP_MUL, value := (x + y) * (x + y), grad := 1, left := some 2, right := some 2, requires_grad := true, visited := false }] =
      [{ id := 0, op := GradOp.OP_CONSTANT, value := x, grad := 0 + (0 + 1 * (x + y) + 1 * (x + y)), left := none, right := none, requires_grad := true, visited := false },
       { id := 1, op := GradOp.OP_CONSTANT, value := y, grad := 0 + (0 + 1 * (x + y) + 1 * (x + y)), left := none, right := none, requires_grad := true, visited := false },
       { id := 2, op := GradOp.OP_ADD, value := x + y, grad := 0 + 1 * (x + y) + 1 * (x + y), left := some 0, right := some 1, requires_grad := true, visited := false },
       { id := 3, op := GradOp.OP_MUL, value := (x + y) * (x + y), grad := 1, left := some 2, right := some 2, requires_grad := true, visited := false }] := rfl
  have s2b : backward_step powF 2
      [{ id := 0, op := GradOp.OP_CONSTANT, value := x, grad := 0 + (0 + 1 * (x + y) + 1 * (x + y)), left := none, right := none, requires_grad := true, visited := false },
       { id := 1, op := GradOp.OP_CONSTANT, value := y, grad := 0 + (0 + 1 * (x + y) + 1 * (x + y)), left := none, right := none, requires_grad := true, visited := false },
       { id := 2, op := GradOp.OP_ADD, value := x + y, grad := 0 + 1 * (x + y) + 1 * (x + y), left := some 0, right := some 1, requires_grad := true, visited := false },
       { id := 3, op := GradOp.OP_MUL, value := (x + y) * (x + y), grad := 1, left := some 2, right := some 2, requires_grad := true, visited := false }] =
      [{ id := 0, op := GradOp.OP_CONSTANT, value := x, grad := 0 + (0 + 1 * (x + y) + 1 * (x + y)) + (0 + 1 * (x + y) + 1 * (x + y)), left := none, right := none, requires_grad := true, visited := false },
       { id := 1, op := GradOp.OP_CONSTANT, value := y, grad := 0 + (0 + 1 * (x + y) + 1 * (x + y)) + (0 + 1 * (x + y) + 1 * (x + y)), left := none, right := none, requires_grad := true, visited := false },
       { id := 2, op := GradOp.OP_ADD, value := x + y, grad := 0 + 1 * (x + y) + 1 * (x + y), left := some 0, right := some 1, requires_grad := true, visited := false },
       { id := 3, op := GradOp.OP_MUL, value := (x + y) * (x + y), grad := 1, left := some 2, right := some 2, requires_grad := true, visited := false }] := rfl
  have leafA1 : backward_pass powF 2 0
      [{ id := 0, op := GradOp.OP_CONSTANT, value := x, grad := 0 + (0 + 1 * (x + y) + 1 * (x + y)), left := none, right := none, requires_grad := true, visited := false },
       { id := 1, op := GradOp.OP_CONSTANT, value := y, grad := 0 + (0 + 1 * (x + y) + 1 * (x + y)), left := none, right := none, requires_grad := true, visited := false },
       { id := 2, op := GradOp.OP_ADD, value := x + y, grad := 0 + 1 * (x + y) + 1 * (x + y), left := some 0, right := some 1, requires_grad := true, visited := false },
       { id := 3, op := GradOp.OP_MUL, value := (x + y) * (x + y), grad := 1, left := some 2, right := some 2, requires_grad := true, visited := false }] =
      [{ id := 0, op := GradOp.OP_CONSTANT, value := x, grad := 0 + (0 + 1 * (x + y) + 1 * (x + y)), left := none, right := none, requires_grad := true, visited := false },
       { id := 1, op := GradOp.OP_CONSTANT, value := y, grad := 0 + (0 + 1 * (x + y) + 1 * (x + y)), left := none, right := none, requires_grad := true, visited := false },
       { id := 2, op := GradOp.OP_ADD, value := x + y, grad := 0 + 1 * (x + y) + 1 * (x + y), left := some 0, right := some 1, requires_grad := true, visited := false },
       { id := 3, op := GradOp.OP_MUL, value := (x + y) * (x + y), grad := 1, left := some 2, right := some 2, requires_grad := true, visited := false }] :=
    backward_pass_leaf powF 2 (by norm_num) 0 _ _ rfl rfl rfl rfl rfl
  have leafB1 : backward_pass powF 2 1
      [{ id := 0, op := GradOp.OP_CONSTANT, value := x, grad := 0 + (0 + 1 * (x + y) + 1 * (x + y)), left := none, right := none, requires_grad := true, visited := false },
       { id := 1, op := GradOp.OP_CONSTANT, value := y, grad := 0 + (0 + 1 * (x + y) + 1 * (x + y)), left := none, right := none, requires_grad := true, visited := false },
       { id := 2, op := GradOp.OP_ADD, value := x + y, grad := 0 + 1 * (x + y) + 1 * (x + y), left := some 0, right := some 1, requires_grad := true, visited := false },
       { id := 3, op := GradOp.OP_MUL, value := (x + y) * (x + y), grad := 1, left := some 2, right := some 2, requires_grad := true, visited := false }] =
      [{ id := 0, op := GradOp.OP_CONSTANT, value := x, grad := 0 + (0 + 1 * (x + y) + 1 * (x + y)), left := none, right := none, requires_grad := true, visited := false },
       { id := 1, op := GradOp.OP_CONSTANT, value := y, grad := 0 + (0 + 1 * (x + y) + 1 * (x + y)), left := none, right := none, requires_grad := true, visited := false },
       { id := 2, op := GradOp.OP_ADD, value := x + y, grad := 0 + 1 * (x + y) + 1 * (x + y), left := some 0, right := some 1, requires_grad := true, visited := false },
       { id := 3, op := GradOp.OP_MUL, value := (x + y) * (x + y), grad := 1, left := some 2, right := some 2, requires_grad := true, visited := false }] :=
    backward_pass_leaf powF 2 (by norm_num) 1 _ _ rfl rfl rfl rfl rfl
  have leafA2 : backward_pass powF 2 0
      [{ id := 0, op := GradOp.OP_CONSTANT, value := x, grad := 0 + (0 + 1 * (x + y) + 1 * (x + y)) + (0 + 1 * (x + y) + 1 * (x + y)), left := none, right := none, requires_grad := true, visited := false },
       { id := 1, op := GradOp.OP_CONSTANT, value := y, grad := 0 + (0 + 1 * (x + y) + 1 * (x + y)) + (0 + 1 * (x + y) + 1 * (x + y)), left := none, right := none, requires_grad := true, visited := false },
       { id := 2, op := GradOp.OP_ADD, value := x + y, grad := 0 + 1 * (x + y) + 1 * (x + y), left := some 0, right := some 1, requires_grad := true, visited := false },
       { id := 3, op := GradOp.OP_MUL, value := (x + y) * (x + y), grad := 1, left := some 2, right := some 2, requires_grad := true, visited := false }] =
      [{ id := 0, op := GradOp.OP_CONSTANT, value := x, grad := 0 + (0 + 1 * (x + y) + 1 * (x + y)) + (0 + 1 * (x + y) + 1 * (x + y)), left := none, right := none, requires_grad := true, visited := false },
       { id := 1, op := GradOp.OP_CONSTANT, value := y, grad := 0 + (0 + 1 * (x + y) + 1 * (x + y)) + (0 + 1 * (x + y) + 1 * (x + y)), left := none, right := none, requires_grad := true, visited := false },
       { id := 2, op := GradOp.OP_ADD, value := x + y, grad := 0 + 1 * (x + y) + 1 * (x + y), left := some 0, right := some 1, requires_grad := true, visited := false },
       { id := 3, op := GradOp.OP_MUL, value := (x + y) * (x + y), grad := 1, left := some 2, right := some 2, requires_grad := true, visited := false }] :=
    backward_pass_leaf powF 2 (by norm_num) 0 _ _ rfl rfl rfl rfl rfl
  have leafB2 : backward_pass powF 2 1
      [{ id := 0, op := GradOp.OP_CONSTANT, value := x, grad := 0 + (0 + 1 * (x + y) + 1 * (x + y)) + (0 + 1 * (x + y) + 1 * (x + y)), left := none, right := none, requires_grad := true, visited := false },
       { id := 1, op := GradOp.OP_CONSTANT, value := y, grad := 0 + (0 + 1 * (x + y) + 1 * (x + y)) + (0 + 1 * (x + y) + 1 * (x + y)), left := none, right := none, requires_grad := true, visited := false },
       { id := 2, op := GradOp.OP_ADD, value := x + y, grad := 0 + 1 * (x + y) + 1 * (x + y), left := some 0, right := some 1, requires_grad := true, visited := false },
       { id := 3, op := GradOp.OP_MUL, value := (x + y) * (x + y), grad := 1, left := some 2, right := some 2, requires_grad := true, visited := false }] =
      [{ id := 0, op := GradOp.OP_CONSTANT, value := x, grad := 0 + (0 + 1 * (x + y) + 1 * (x + y)) + (0 + 1 * (x + y) + 1 * (x + y)), left := none, right := none, requires_grad := true, visited := false },
       { id := 1, op := GradOp.OP_CONSTANT, value := y, grad := 0 + (0 + 1 * (x + y) + 1 * (x + y)) + (0 + 1 * (x + y) + 1 * (x + y)), left := none, right := none, requires_grad := true, visited := false },
       { id := 2, op := GradOp.OP_ADD, value := x + y, grad := 0 + 1 * (x + y) + 1 * (x + y), left := some 0, right := some 1, requires_grad := true, visited := false },
       { id := 3, op := GradOp.OP_MUL, value := (x + y) * (x + y), grad := 1, left := some 2, right := some 2, requires_grad := true, visited := false }] :=
    backward_pass_leaf powF 2 (by norm_num) 1 _ _ rfl rfl rfl rfl rfl
  have pAdd1 : backward_pass powF 3 2
      [{ id := 0, op := GradOp.OP_CONSTANT, value := x, grad := 0, left := none, right := none, requires_grad := true, visited := false },
       { id := 1, op := GradOp.OP_CONSTANT, value := y, grad := 0, left := none, right := none, requires_grad := true, visited := false },
       { id := 2, op := GradOp.OP_ADD, value := x + y, grad := 0 + 1 * (x + y) + 1 * (x + y), left := some 0, right := some 1, requires_grad := true, visited := false },
       { id := 3, op := GradOp.OP_MUL, value := (x + y) * (x + y), grad := 1, left := some 2, right := some 2, requires_grad := true, visited := false }] =
      [{ id := 0, op := GradOp.OP_CONSTANT, value := x, grad := 0 + (0 + 1 * (x + y) + 1 * (x + y)), left := none, right := none, requires_grad := true, visited := false },
       { id := 1, op := GradOp.OP_CONSTANT, value := y, grad := 0 + (0 + 1 * (x + y) + 1 * (x + y)), left := none, right := none, requires_grad := true, visited := false },
       { id := 2, op := GradOp.OP_ADD, value := x + y, grad := 0 + 1 * (x + y) + 1 * (x + y), left := some 0, right := some 1, requires_grad := true, visited := false },
       { id := 3, op := GradOp.OP_MUL, value := (x + y) * (x + y), grad := 1, left := some 2, right := some 2, requires_grad := true, visited := false }] :=
    backward_pass_node2 powF 3 (by norm_num) 2 0 1 _ _ _ _ _ rfl rfl s2a rfl
      leafA1 rfl leafB1
  have pAdd2 : backward_pass powF 3 2
      [{ id := 0, op := GradOp.OP_CONSTANT, value := x, grad := 0 + (0 + 1 * (x + y) + 1 * (x + y)), left := none, right := none, requires_grad := true, visited := false },
       { id := 1, op := GradOp.OP_CONSTANT, value := y, grad := 0 + (0 + 1 * (x + y) + 1 * (x + y)), left := none, right := none, requires_grad := true, visited := false },
       { id := 2, op := GradOp.OP_ADD, value := x + y, grad := 0 + 1 * (x + y) + 1 * (x + y), left := some 0, right := some 1, requires_grad := true, visited := false },
       { id := 3, op := GradOp.OP_MUL, value := (x + y) * (x + y), grad := 1, left := some 2, right := some 2, requires_grad := true, visited := false }] =
      [{ id := 0, op := GradOp.OP_CONSTANT, value := x, grad := 0 + (0 + 1 * (x + y) + 1 * (x + y)) + (0 + 1 * (x + y) + 1 * (x + y)), left := none, right := none, requires_grad := true, visited := false },
       { id := 1, op := GradOp.OP_CONSTANT, value := y, grad := 0 + (0 + 1 * (x + y) + 1 * (x + y)) + (0 + 1 * (x + y) + 1 * (x + y)), left := none, right := none, requires_grad := true, visited := false },
       { id := 2, op := GradOp.OP_ADD, value := x + y, grad := 0 + 1 * (x + y) + 1 * (x + y), left := some 0, right := some 1, requires_grad := true, visited := false },
       { id := 3, op := GradOp.OP_MUL, value := (x + y) * (x + y), grad := 1, left := some 2, right := some 2, requires_grad := true, visited := false }] :=
    backward_pass_node2 powF 3 (by norm_num) 2 0 1 _ _ _ _ _ rfl rfl s2b rfl
      leafA2 rfl leafB2
  have main : backward_pass powF 4 3
      [{ id := 0, op := GradOp.OP_CONSTANT, value := x, grad := 0, left := none, right := none, requires_grad := true, visited := false },
       { id := 1, op := GradOp.OP_CONSTANT, value := y, grad := 0, left := none, right := none, requires_grad := true, visited := false },
       { id := 2, op := GradOp.OP_ADD, value := x + y, grad := 0, left := some 0, right := some 1, requires_grad := true, visited := false },
       { id := 3, op := GradOp.OP_MUL, value := (x + y) * (x + y), grad := 1, left := some 2, right := some 2, requires_grad := true, visited := false }] =
      [{ id := 0, op := GradOp.OP_CONSTANT, value := x, grad := 0 + (0 + 1 * (x + y) + 1 * (x + y)) + (0 + 1 * (x + y) + 1 * (x + y)), left := none, right := none, requires_grad := true, visited := false },
       { id := 1, op := GradOp.OP_CONSTANT, value := y, grad := 0 + (0 + 1 * (x + y) + 1 * (x + y)) + (0 + 1 * (x + y) + 1 * (x + y)), left := none, right := none, requires_grad := true, visited := false },
       { id := 2, op := GradOp.OP_ADD, value := x + y, grad := 0 + 1 * (x + y) + 1 * (x + y), left := some 0, right := some 1, requires_grad := true, visited := false },
       { id := 3, op := GradOp.OP_MUL, value := (x + y) * (x + y), grad := 1, left := some 2, right := some 2, requires_grad := true, visited := false }] :=
    backward_pass_node2 powF 4 (by norm_num) 3 2 2 _ _ _ _ _ rfl rfl s3 rfl
      pAdd1 rfl pAdd2
  rw [main]

/-- Full evaluation of the division program on the pointer graph:
gradient(a) ends as 0 + 1/b and gradient(b) as 0 - 1·a/(b·b). -/
theorem graphDivProg_eq (powF : α → α → α) (av bv : α) :
    graphDivProg powF av bv =
      ((0, 1, 2),
       { heap :=
          [{ id := 0, op := GradOp.OP_CONSTANT, value := av, grad := 0 + 1 / bv, left := none, right := none, requires_grad := true, visited := false },
           { id := 1, op := GradOp.OP_CONSTANT, value := bv, grad := 0 - 1 * av / (bv * bv), left := none, right := none, requires_grad := true, visited := false },
           { id := 2, op := GradOp.OP_DIV, value := av / bv, grad := 1, left := some 0, right := some 1, requires_grad := true, visited := false }],
         ctx := some { nodes := [0, 1, 2], capacity := 1024,
                       is_recording := true } }) := by
  have hfwd : graphDivProg powF av bv =
      ((0, 1, 2),
       gul_backward powF 2
        { heap :=
           [{ id := 0, op := GradOp.OP_CONSTANT, value := av, grad := 0, left := none, right := none, requires_grad := true, visited := false },
            { id := 1, op := GradOp.OP_CONSTANT, value := bv, grad := 0, left := none, right := none, requires_grad := true, visited := false },
            { id := 2, op := GradOp.OP_DIV, value := av / bv, grad := 0, left := some 0, right := some 1, requires_grad := true, visited := false }],
          ctx := some { nodes := [0, 1, 2], capacity := 1024,
                        is_recording := true } }) := by
    simp only [graphDivProg, gul_make_var, gul_var_div, create_node,
      gul_grad_begin, initState, heapGet, heapModify, GRAD_INITIAL_CAPACITY]
    norm_num
  rw [hfwd]
  have hroot : gul_backward powF 2
      ({ heap :=
          [{ id := 0, op := GradOp.OP_CONSTANT, value := av, grad := 0, left := none, right := none, requires_grad := true, visited := false },
           { id := 1, op := GradOp.OP_CONSTANT, value := bv, grad := 0, left := none, right := none, requires_grad := true, visited := false },
           { id := 2, op := GradOp.OP_DIV, value := av / bv, grad := 0, left := some 0, right := some 1, requires_grad := true, visited := false }],
         ctx := some { nodes := [0, 1, 2], capacity := 1024,
                       is_recording := true } } : GraphState α) =
      { heap :=
          (backward_pass powF 3 2
            [{ id := 0, op := GradOp.OP_CONSTANT, value := av, grad := 0, left := none, right := none, requires_grad := true, visited := false },
             { id := 1, op := GradOp.OP_CONSTANT, value := bv, grad := 0, left := none, right := none, requires_grad := true, visited := false },
             { id := 2, op := GradOp.OP_DIV, value := av / bv, grad := 1, left := some 0, right := some 1, requires_grad := true, visited := false }]),
        ctx := some { nodes := [0, 1, 2], capacity := 1024,
                      is_recording := true } } := rfl
  rw [hroot]
  have s2 : backward_step powF 2
      [{ id := 0, op := GradOp.OP_CONSTANT, value := av, grad := 0, left := none, right := none, requires_grad := true, visited := false },
       { id := 1, op := GradOp.OP_CONSTANT, value := bv, grad := 0, left := none, right := none, requires_grad := true, visited := false },
       { id := 2, op := GradOp.OP_DIV, value := av / bv, grad := 1, left := some 0, right := some 1, requires_grad := true, visited := false }] =
      [{ id := 0, op := GradOp.OP_CONSTANT, value := av, grad := 0 + 1 / bv, left := none, right := none, requires_grad := true, visited := false },
       { id := 1, op := GradOp.OP_CONSTANT, value := bv, grad := 0 - 1 * av / (bv * bv), left := none, right := none, requires_grad := true, visited := false },
       { id := 2, op := GradOp.OP_DIV, value := av / bv, grad := 1, left := some 0, right := some 1, requires_grad := true, visited := false }] := rfl
  have leafA : backward_pass powF 2 0
      [{ id := 0, op := GradOp.OP_CONSTANT, value := av, grad := 0 + 1 / bv, left := none, right := none, requires_grad := true, visited := false },
       { id := 1, op := GradOp.OP_CONSTANT, value := bv, grad := 0 - 1 * av / (bv * bv), left := none, right := none, requires_grad := true, visited := false },
       { id := 2, op := GradOp.OP_DIV, value := av / bv, grad := 1, left := some 0, right := some 1, requires_grad := true, visited := false }] =
      [{ id := 0, op := GradOp.OP_CONSTANT, value := av, grad := 0 + 1 / bv, left := none, right := none, requires_grad := true, visited := false },
       { id := 1, op := GradOp.OP_CONSTANT, value := bv, grad := 0 - 1 * av / (bv * bv), left := none, right := none, requires_grad := true, visited := false },
       { id := 2, op := GradOp.OP_DIV, value := av / bv, grad := 1, left := some 0, right := some 1, requires_grad := true, visited := false }] :=
    backward_pass_leaf powF 2 (by norm_num) 0 _ _ rfl rfl rfl rfl rfl
  have leafB : backward_pass powF 2 1
      [{ id := 0, op := GradOp.OP_CONSTANT, value := av, grad := 0 + 1 / bv, left := none, right := none, requires_grad := true, visited := false },
       { id := 1, op := GradOp.OP_CONSTANT, value := bv, grad := 0 - 1 * av / (bv * bv), left := none, right := none, requires_grad := true, visited := false },
       { id := 2, op := GradOp.OP_DIV, value := av / bv, grad := 1, left := some 0, right := some 1, requires_grad := true, visited := false }] =
      [{ id := 0, op := GradOp.OP_CONSTANT, value := av, grad := 0 + 1 / bv, left := none, right := none, requires_grad := true, visited := false },
       { id := 1, op := GradOp.OP_CONSTANT, value := bv, grad := 0 - 1 * av / (bv * bv), left := none, right := none, requires_grad := true, visited := false },
       { id := 2, op := GradOp.OP_DIV, value := av / bv, grad := 1, left := some 0, right := some 1, requires_grad := true, visited := false }] :=
    backward_pass_leaf powF 2 (by norm_num) 1 _ _ rfl rfl rfl rfl rfl
  have main : backward_pass powF 3 2
      [{ id := 0, op := GradOp.OP_CONSTANT, value := av, grad := 0, left := none, right := none, requires_grad := true, visited := false },
       { id := 1, op := GradOp.OP_CONSTANT, value := bv, grad := 0, left := none, right := none, requires_grad := true, visited := false },
       { id := 2, op := GradOp.OP_DIV, value := av / bv, grad := 1, left := some 0, right := some 1, requires_grad := true, visited := false }] =
      [{ id := 0, op := GradOp.OP_CONSTANT, value := av, grad := 0 + 1 / bv, left := none, right := none, requires_grad := true, visited := false },
       { id := 1, op := GradOp.OP_CONSTANT, value := bv, grad := 0 - 1 * av / (bv * bv), left := none, right := none, requires_grad := true, visited := false },
       { id := 2, op := GradOp.OP_DIV, value := av / bv, grad := 1, left := some 0, right := some 1, requires_grad := true, visited := false }] :=
    backward_pass_node2 powF 3 (by norm_num) 2 0 1 _ _ _ _ _ rfl rfl s2 rfl
      leafA rfl leafB
  rw [main]

/-- Full evaluation of the capacity program with a session configured at
capacity 1: the second variable doubles the capacity to 2 and is still
recorded; the product doubles it again to 4 and is recorded and tracked.
The session grows past its configured bound instead of refusing to
track. -/
theorem graphCapProg_eq (a b : α) :
    graphCapProg 1 a b =
      ((0, 1, 2),
       { heap :=
          [{ id := 0, op := GradOp.OP_CONSTANT, value := a, grad := 0, left := none, right := none, requires_grad := true, visited := false },
           { id := 1, op := GradOp.OP_CONSTANT, value := b, grad := 0, left := none, right := none, requires_grad := true, visited := false },
           { id := 2, op := GradOp.OP_MUL, value := a * b, grad := 0, left := some 0, right := some 1, requires_grad := true, visited := false }],
         ctx := some { nodes := [0, 1, 2], capacity := 4,
                       is_recording := true } }) := by
  simp only [graphCapProg, gul_make_var, gul_var_mul, create_node,
    gul_grad_begin, initState, heapGet, heapModify]
  norm_num

/-- Full evaluation of the untracked-arithmetic program on the pointer
graph: with no session, r = add(a, b) is a dummy node with
requires_grad false, yet gul_backward(r) stamps gradient 1.0 on it
before the requires_grad guard can stop the traversal. -/
theorem graphUntrackedProg_eq (powF : α → α → α) (a b : α) :
    graphUntrackedProg powF a b =
      (2,
       { heap :=
          [{ id := 0, op := GradOp.OP_CONSTANT, value := a, grad := 0, left := none, right := none, requires_grad := true, visited := false },
           { id := 0, op := GradOp.OP_CONSTANT, value := b, grad := 0, left := none, right := none, requires_grad := true, visited := false },
           { id := 0, op := GradOp.OP_CONSTANT, value := a + b, grad := 1, left := none, right := none, requires_grad := false, visited := false }],
         ctx := none }) := by
  have hfwd : graphUntrackedProg powF a b =
      (2,
       gul_backward powF 2
        { heap :=
           [{ id := 0, op := GradOp.OP_CONSTANT, value := a, grad := 0, left := none, right := none, requires_grad := true, visited := false },
            { id := 0, op := GradOp.OP_CONSTANT, value := b, grad := 0, left := none, right := none, requires_grad := true, visited := false },
            { id := 0, op := GradOp.OP_CONSTANT, value := a + b, grad := 0, left := none, right := none, requires_grad := false, visited := false }],
          ctx := none }) := by
    simp only [graphUntrackedProg, gul_make_var, gul_var_add, create_node,
      initState, heapGet, heapModify]
    norm_num
  rw [hfwd]
  have hroot : gul_backward powF 2
      ({ heap :=
          [{ id := 0, op := GradOp.OP_CONSTANT, value := a, grad := 0, left := none, right := none, requires_grad := true, visited := false },
           { id := 0, op := GradOp.OP_CONSTANT, value := b, grad := 0, left := none, right := none, requires_grad := true, visited := false },
           { id := 0, op := GradOp.OP_CONSTANT, value := a + b, grad := 0, left := none, right := none, requires_grad := false, visited := false }],
         ctx := none } : GraphState α) =
      { heap :=
          (backward_pass powF 3 2
           [{ id := 0, op := GradOp.OP_CONSTANT, value := a, grad := 0, left := none, right := none, requires_grad := true, visited := false },
            { id := 0, op := GradOp.OP_CONSTANT, value := b, grad := 0, left := none, right := none, requires_grad := true, visited := false },
            { id := 0, op := GradOp.OP_CONSTANT, value := a + b, grad := 1, left := none, right := none, requires_grad := false, visited := false }]),
        ctx := none } := rfl
  rw [hroot]
  have main : backward_pass powF 3 2
      [{ id := 0, op := GradOp.OP_CONSTANT, value := a, grad := 0, left := none, right := none, requires_grad := true, visited := false },
       { id := 0, op := GradOp.OP_CONSTANT, value := b, grad := 0, left := none, right := none, requires_grad := true, visited := false },
       { id := 0, op := GradOp.OP_CONSTANT, value := a + b, grad := 1, left := none, right := none, requires_grad := false, visited := false }] =
      [{ id := 0, op := GradOp.OP_CONSTANT, value := a, grad := 0, left := none, right := none, requires_grad := true, visited := false },
       { id := 0, op := GradOp.OP_CONSTANT, value := b, grad := 0, left := none, right := none, requires_grad := true, visited := false },
       { id := 0, op := GradOp.OP_CONSTANT, value := a + b, grad := 1, left := none, right := none, requires_grad := false, visited := false }] :=
    backward_pass_notrg powF 3 (by norm_num) 2 _ _ rfl rfl
  rw [main]

end GradGraph

/-- C1: for every pair of inputs x, y, after s = add(x, y), z = mul(s, s)
and backward(z), the flat-tape implementation leaves
gradient(x) = gradient(y) = 2·(x+y), exactly as the claim states; the
pointer-graph implementation, whose recursive backward_pass never
consults its visited field, descends into the shared node's subtree once
per use and leaves gradient(x) = gradient(y) = 4·(x+y) instead. -/
theorem C1_shared_subexpression_gradients {α : Type} [Field α] [DecidableEq α]
    (cosF : α → α) (powF : α → α → α) (x y : α) :
    Stdlib.gul_var_grad (Stdlib.tapeSharedProg cosF x y).1.1
        (Stdlib.tapeSharedProg cosF x y).2 = 2 * (x + y) ∧
    Stdlib.gul_var_grad (Stdlib.tapeSharedProg cosF x y).1.2.1
        (Stdlib.tapeSharedProg cosF x y).2 = 2 * (x + y) ∧
    GradGraph.gul_var_grad (GradGraph.graphSharedProg powF x y).1.1
        (GradGraph.graphSharedProg powF x y).2 = 4 * (x + y) ∧
    GradGraph.gul_var_grad (GradGraph.graphSharedProg powF x y).1.2.1
        (GradGraph.graphSharedProg powF x y).2 = 4 * (x + y) := by
  rw [Stdlib.tapeSharedProg_eq, GradGraph.graphSharedProg_eq]
  refine ⟨?_, ?_, ?_, ?_⟩
  · show (0 : α) + (0 + 1 * (x + y) + 1 * (x + y)) = 2 * (x + y)
    ring
  · show (0 : α) + (0 + 1 * (x + y) + 1 * (x + y)) = 2 * (x + y)
    ring
  · show (0 : α) + (0 + 1 * (x + y) + 1 * (x + y)) +
      (0 + 1 * (x + y) + 1 * (x + y)) = 4 * (x + y)
    ring
  · show (0 : α) + (0 + 1 * (x + y) + 1 * (x + y)) +
      (0 + 1 * (x + y) + 1 * (x + y)) = 4 * (x + y)
    ring

/-- C2 counterexample: on the same call sequence (s = add(x, y),
z = mul(s, s), backward(z)) at x = y = 1, the flat tape reports
gradient(x) = 4 while the pointer graph reports 8, so the two
implementations do not return the same gradient results. -/
theorem C2_counterexample :
    Stdlib.gul_var_grad (Stdlib.tapeSharedProg (fun q : ℚ => q) 1 1).1.1
        (Stdlib.tapeSharedProg (fun q : ℚ => q) 1 1).2 = 4 ∧
    GradGraph.gul_var_grad
        (GradGraph.graphSharedProg (fun _ _ : ℚ => (0 : ℚ)) 1 1).1.1
        (GradGraph.graphSharedProg (fun _ _ : ℚ => (0 : ℚ)) 1 1).2 = 8 ∧
    (4 : ℚ) ≠ 8 := by
  rw [Stdlib.tapeSharedProg_eq, GradGraph.graphSharedProg_eq]
  refine ⟨?_, ?_, by norm_num⟩
  · show (0 : ℚ) + (0 + 1 * (1 + 1) + 1 * (1 + 1)) = 4
    norm_num
  · show (0 : ℚ) + (0 + 1 * (1 + 1) + 1 * (1 + 1)) +
      (0 + 1 * (1 + 1) + 1 * (1 + 1)) = 8
    norm_num

/-- C2 amended: the two implementations agree on forward values but not
on gradients: on s = add(x, y), z = mul(s, s) both compute
value(z) = (x+y)², but after backward(z) the flat tape reports
gradient(x) = gradient(y) = 2·(x+y) while the pointer graph reports
4·(x+y). -/
theorem C2_value_agree_gradient_diverge {α : Type} [Field α] [DecidableEq α]
    (cosF : α → α) (powF : α → α → α) (x y : α) :
    Stdlib.gul_var_val (Stdlib.tapeSharedProg cosF x y).1.2.2.2 =
        (x + y) * (x + y) ∧
    GradGraph.gul_var_value (GradGraph.graphSharedProg powF x y).1.2.2.2
        (GradGraph.graphSharedProg powF x y).2 = (x + y) * (x + y) ∧
    Stdlib.gul_var_grad (Stdlib.tapeSharedProg cosF x y).1.1
        (Stdlib.tapeSharedProg cosF x y).2 = 2 * (x + y) ∧
    GradGraph.gul_var_grad (GradGraph.graphSharedProg powF x y).1.1
        (GradGraph.graphSharedProg powF x y).2 = 4 * (x + y) := by
  rw [Stdlib.tapeSharedProg_eq, GradGraph.graphSharedProg_eq]
  refine ⟨rfl, rfl, ?_, ?_⟩
  · show (0 : α) + (0 + 1 * (x + y) + 1 * (x + y)) = 2 * (x + y)
    ring
  · show (0 : α) + (0 + 1 * (x + y) + 1 * (x + y)) +
      (0 + 1 * (x + y) + 1 * (x + y)) = 4 * (x + y)
    ring

/-- C3 counterexample: with z = add(x, y) at x = 2, y = 3 on the flat
tape, gradient(x) is 1 after the first backward(z) but 2 after a second
backward(z) in the same session — the observable gradients do depend on
the earlier backward call, because gul_run_backward never zeroes
gradients first. -/
theorem C3_counterexample :
    Stdlib.gul_var_grad (Stdlib.tapeDoubleBackwardProg (fun q : ℚ => q) 2 3).1
        (Stdlib.tapeDoubleBackwardProg (fun q : ℚ => q) 2 3).2.1 = 1 ∧
    Stdlib.gul_var_grad (Stdlib.tapeDoubleBackwardProg (fun q : ℚ => q) 2 3).1
        (Stdlib.tapeDoubleBackwardProg (fun q : ℚ => q) 2 3).2.2 = 2 ∧
    (2 : ℚ) ≠ 1 := by
  rw [Stdlib.tapeDoubleBackwardProg_eq]
  refine ⟨?_, ?_, by norm_num⟩
  · show (0 : ℚ) + 1 = 1
    norm_num
  · show (0 : ℚ) + 1 + 1 = 2
    norm_num

/-- C3 amended: backward(r) assigns gradient[r] = 1.0 and walks the tape
from r down to 0 without zeroing any gradient beforehand (gradients are
zero only because tape_add_node initialises them to 0), so gradients
accumulate across backward calls in one session: after backward(z) on
z = add(x, y) the leaf gradient is 1, and after a second backward(z)
it is 2. -/
theorem C3_no_zeroing_backward_accumulates {α : Type} [Field α]
    [DecidableEq α] (cosF : α → α) (x y : α) :
    Stdlib.gul_var_grad (Stdlib.tapeDoubleBackwardProg cosF x y).1
        (Stdlib.tapeDoubleBackwardProg cosF x y).2.1 = 1 ∧
    Stdlib.gul_var_grad (Stdlib.tapeDoubleBackwardProg cosF x y).1
        (Stdlib.tapeDoubleBackwardProg cosF x y).2.2 = 1 + 1 := by
  rw [Stdlib.tapeDoubleBackwardProg_eq]
  exact ⟨by show (0 : α) + 1 = 1; ring, by show (0 : α) + 1 + 1 = 1 + 1; ring⟩

/-- C5 counterexample: record x = 5, y = 7, s = add(x, y), start a second
session with beginRecording, record c = 9 there and run backward(c).
Querying the stale handle of x then returns value 5 (its stored value,
not the neutral 0) and gradient 1 (the gradient of the new session's
node that now occupies tape index 0). -/
theorem C5_counterexample :
    Stdlib.gul_var_val (Stdlib.tapeStaleProg (fun q : ℚ => q) 5 7 9).1 = 5 ∧
    (5 : ℚ) ≠ 0 ∧
    Stdlib.gul_var_grad (Stdlib.tapeStaleProg (fun q : ℚ => q) 5 7 9).1
        (Stdlib.tapeStaleProg (fun q : ℚ => q) 5 7 9).2.2 = 1 ∧
    (1 : ℚ) ≠ 0 := by
  rw [Stdlib.tapeStaleProg_eq]
  exact ⟨rfl, by norm_num, rfl, by norm_num⟩

/-- C5 amended: after a second beginRecording, querying a stale handle
does not fail, but it is not pinned to 0 either: value(h) returns the
handle's stored forward value from the prior session, and gradient(h)
returns 0 only while the new session's node count is at or below the
handle's index — once the new session records past that index the stale
handle aliases the new node there, and after backward in the new session
gradient(h) returns that node's gradient (here 1). -/
theorem C5_stale_handle_aliasing {α : Type} [Field α] [DecidableEq α]
    (cosF : α → α) (a b c : α) :
    Stdlib.gul_var_val (Stdlib.tapeStaleProg cosF a b c).1 = a ∧
    Stdlib.gul_var_grad (Stdlib.tapeStaleProg cosF a b c).1
        (Stdlib.tapeStaleProg cosF a b c).2.1 = 0 ∧
    Stdlib.gul_var_grad (Stdlib.tapeStaleProg cosF a b c).1
        (Stdlib.tapeStaleProg cosF a b c).2.2 = 1 := by
  rw [Stdlib.tapeStaleProg_eq]
  refine ⟨rfl, ?_, rfl⟩
  show (if (0 : Int) ≤ 0 ∧ (0 : Int) < ((0 : Nat) : Int) then _ else 0) = (0 : α)
  norm_num
namespace Stdlib

variable {α : Type} [Field α] [DecidableEq α]

/-- gul_var_add inside an active session with room for both nodes:
exactly two nodes are appended — the OP_NONE node of the inner
gul_make_var, then (when both operands are tracked) the OP_ADD node —
and the returned index is count+1 in the tracked case, count (the
parentless OP_NONE leaf) otherwise. -/
theorem gul_var_add_active_cases (cap : Nat) (a b : ScalarVar α) (t : Tape α)
    (hact : t.active = true) (hroom : t.nodes.length + 1 < cap) :
    ((0 ≤ a.index ∧ 0 ≤ b.index) →
      gul_var_add cap a b t =
        ({ value := a.value + b.value, index := (t.nodes.length : Int) + 1 },
         { nodes := t.nodes ++
            [{ op := OpType.OP_NONE, value := a.value + b.value, grad := 0,
               parents := (-1, -1) },
             { op := OpType.OP_ADD, value := a.value + b.value, grad := 0,
               parents := (a.index, b.index) }],
           active := true })) ∧
    (¬(0 ≤ a.index ∧ 0 ≤ b.index) →
      gul_var_add cap a b t =
        ({ value := a.value + b.value, index := (t.nodes.length : Int) },
         { nodes := t.nodes ++
            [{ op := OpType.OP_NONE, value := a.value + b.value, grad := 0,
               parents := (-1, -1) }],
           active := true })) := by
  obtain ⟨ns, act⟩ := t
  simp only at hact hroom
  subst hact
  constructor
  · intro hab
    simp only [gul_var_add, gul_make_var, tape_add_node, Bool.not_true,
      Bool.false_eq_true, if_false, if_true]
    rw [if_neg (by omega : ¬ cap ≤ ns.length)]
    rw [if_pos ⟨rfl, hab.1, hab.2⟩]
    simp only [Bool.not_true, Bool.false_eq_true, if_false, if_true, List.length_append,
      List.length_cons, List.length_nil]
    rw [if_neg (by omega : ¬ cap ≤ ns.length + 1)]
    simp [List.append_assoc]
  · intro hab
    simp only [gul_var_add, gul_make_var, tape_add_node, Bool.not_true,
      Bool.false_eq_true, if_false, if_true]
    rw [if_neg (by omega : ¬ cap ≤ ns.length)]
    rw [if_neg (by
      intro hcon
      exact hab ⟨hcon.2.1, hcon.2.2⟩)]

/-- gul_var_add on a full active tape: the forward value is still
computed, the result is untracked (index -1) and the tape is unchanged. -/
theorem gul_var_add_full (cap : Nat) (a b : ScalarVar α) (t : Tape α)
    (hact : t.active = true) (hfull : cap ≤ t.nodes.length) :
    gul_var_add cap a b t = ({ value := a.value + b.value, index := -1 }, t) := by
  obtain ⟨ns, act⟩ := t
  simp only at hact hfull
  subst hact
  simp only [gul_var_add, gul_make_var, tape_add_node, Bool.not_true,
    Bool.false_eq_true, if_false, if_true]
  rw [if_pos hfull]
  by_cases hab : (0 : Int) ≤ a.index ∧ (0 : Int) ≤ b.index
  · rw [if_pos ⟨rfl, hab.1, hab.2⟩]
    simp only [Bool.not_true, Bool.false_eq_true, if_false]
    rw [if_pos hfull]
  · rw [if_neg (by
      intro hcon
      exact hab ⟨hcon.2.1, hcon.2.2⟩)]

/-- A handle with index -1 always reports gradient 0, against any tape. -/
theorem gul_var_grad_untracked (val : α) (t2 : Tape α) :
    gul_var_grad { value := val, index := -1 } t2 = 0 := by
  simp [gul_var_grad]

/-- gul_make_var while the tape is inactive: correct value, index -1,
tape untouched. -/
theorem gul_make_var_inactive (cap : Nat) (val : α) (t : Tape α)
    (h : t.active = false) :
    gul_make_var cap val t = ({ value := val, index := -1 }, t) := by
  simp [gul_make_var, h]

/-- gul_var_add while the tape is inactive: correct forward value, index
-1, tape untouched. -/
theorem gul_var_add_inactive (cap : Nat) (a b : ScalarVar α) (t : Tape α)
    (h : t.active = false) :
    gul_var_add cap a b t = ({ value := a.value + b.value, index := -1 }, t) := by
  simp [gul_var_add, gul_make_var, tape_add_node, h]

/-- gul_backward on a handle with index -1 is a no-op. -/
theorem gul_backward_untracked (cosF : α → α) (val : α) (t2 : Tape α) :
    gul_backward cosF { value := val, index := -1 } t2 = t2 := by
  simp [gul_backward]

end Stdlib

namespace GradGraph

variable {α : Type} [Field α] [DecidableEq α]

/-- create_node while recording at (or beyond) capacity: the capacity is
doubled and the node is appended and recorded anyway. -/
theorem create_node_full_doubles (op : GradOp) (value : α)
    (l r : Option Nat) (heapL : List (GraphNode α)) (ns : List Nat)
    (cap : Nat) (hfull : cap ≤ ns.length) :
    (create_node op value l r
        { heap := heapL,
          ctx := some { nodes := ns, capacity := cap, is_recording := true } }).2.ctx =
      some { nodes := ns ++ [heapL.length], capacity := cap * 2,
             is_recording := true } ∧
    (create_node op value l r
        { heap := heapL,
          ctx := some { nodes := ns, capacity := cap, is_recording := true } }).2.heap.length =
      heapL.length + 1 := by
  constructor
  · simp [create_node, if_pos hfull]
  · simp [create_node, if_pos hfull]

/-- gul_var_add while recording, on a two-node heap whose leaves carry
requires_grad flags ra and rb: the result node's requires_grad is
exactly ra || rb. -/
theorem gul_var_add_requires_grad (va vb ga gb : α) (ra rb : Bool)
    (ns : List Nat) (cap : Nat) :
    (heapGet
      (gul_var_add 0 1
        { heap :=
            [{ id := 0, op := GradOp.OP_CONSTANT, value := va, grad := ga,
               left := none, right := none, requires_grad := ra, visited := false },
             { id := 1, op := GradOp.OP_CONSTANT, value := vb, grad := gb,
               left := none, right := none, requires_grad := rb, visited := false }],
          ctx := some { nodes := ns, capacity := cap, is_recording := true } }).2.heap
      (gul_var_add 0 1
        { heap :=
            [{ id := 0, op := GradOp.OP_CONSTANT, value := va, grad := ga,
               left := none, right := none, requires_grad := ra, visited := false },
             { id := 1, op := GradOp.OP_CONSTANT, value := vb, grad := gb,
               left := none, right := none, requires_grad := rb, visited := false }],
          ctx := some { nodes := ns, capacity := cap, is_recording := true } }).1).requires_grad =
    (ra || rb) := by
  simp only [gul_var_add, create_node, heapGet]
  by_cases hfull : cap ≤ ns.length
  · rw [if_pos hfull]
    simp
  · rw [if_neg hfull]
    simp

end GradGraph

namespace GradGraph

variable {α : Type} [Field α] [DecidableEq α]

omit [Field α] [DecidableEq α] in
/-- heapModify touches no cell other than the one addressed. -/
theorem heapModify_ne (h : List (GraphNode α)) (k j : Nat)
    (f : GraphNode α → GraphNode α) (hne : j ≠ k) :
    (heapModify h k f)[j]? = h[j]? := by
  unfold heapModify
  cases hh : h.get? k with
  | none => rfl
  | some n => simp [List.getElem?_set_ne (Ne.symm hne)]

/-- The OP_POW case of backward_pass performs exactly one write: the left
operand's accumulator receives +g·valueB·powF(valueA, valueB - 1). -/
theorem backward_step_pow (powF : α → α → α) (h : List (GraphNode α))
    (addr la ra : Nat) (n : GraphNode α)
    (hn : h[addr]? = some n) (hop : n.op = GradOp.OP_POW)
    (hl : n.left = some la) (hr : n.right = some ra) :
    backward_step powF addr h =
      heapModify h la
        (fun m =>
          { m with
            grad := m.grad + n.grad * (heapGet h ra).value *
              powF (heapGet h la).value ((heapGet h ra).value - 1) }) := by
  have hget : heapGet h addr = n := by
    simp [heapGet, List.getD_eq_getElem?_getD, hn]
  simp only [backward_step, hget, hop, hl, hr]

end GradGraph

/-- C9: when backward_pass propagates a Pow node with gradient g, the
chain-rule switch adds exactly g·valueB·pow(valueA, valueB−1) to
operandA's gradient accumulator and writes to no other cell — in
particular no contribution is ever made toward operandB (the exponent is
treated as a constant). -/
theorem C9_pow_rule {α : Type} [Field α] [DecidableEq α] (powF : α → α → α)
    (h : List (GradGraph.GraphNode α)) (addr la ra : Nat)
    (n : GradGraph.GraphNode α)
    (hn : h[addr]? = some n) (hop : n.op = GradGraph.GradOp.OP_POW)
    (hl : n.left = some la) (hr : n.right = some ra) :
    GradGraph.backward_step powF addr h =
      GradGraph.heapModify h la
        (fun m =>
          { m with
            grad := m.grad + n.grad * (GradGraph.heapGet h ra).value *
              powF (GradGraph.heapGet h la).value
                ((GradGraph.heapGet h ra).value - 1) }) ∧
    (∀ j : Nat, j ≠ la → (GradGraph.backward_step powF addr h)[j]? = h[j]?) := by
  refine ⟨GradGraph.backward_step_pow powF h addr la ra n hn hop hl hr, ?_⟩
  intro j hj
  rw [GradGraph.backward_step_pow powF h addr la ra n hn hop hl hr]
  exact GradGraph.heapModify_ne h la j _ hj

/-- C9 witness: the rule evaluated on a concrete three-node heap
(valueA = 2, valueB = 3, gradient 1) over the rationals. -/
theorem C9_pow_rule_witness :
    GradGraph.backward_step (fun a b => a * a * b) 2
      [{ id := 0, op := GradGraph.GradOp.OP_CONSTANT, value := (2 : ℚ), grad := 0,
         left := none, right := none, requires_grad := true, visited := false },
       { id := 1, op := GradGraph.GradOp.OP_CONSTANT, value := 3, grad := 0,
         left := none, right := none, requires_grad := true, visited := false },
       { id := 2, op := GradGraph.GradOp.OP_POW, value := (8 : ℚ), grad := 1,
         left := some 0, right := some 1, requires_grad := true,
         visited := false }] =
      GradGraph.heapModify
        [{ id := 0, op := GradGraph.GradOp.OP_CONSTANT, value := (2 : ℚ), grad := 0,
           left := none, right := none, requires_grad := true, visited := false },
         { id := 1, op := GradGraph.GradOp.OP_CONSTANT, value := 3, grad := 0,
           left := none, right := none, requires_grad := true, visited := false },
         { id := 2, op := GradGraph.GradOp.OP_POW, value := (8 : ℚ), grad := 1,
           left := some 0, right := some 1, requires_grad := true,
           visited := false }] 0
        (fun m => { m with grad := m.grad + 1 * 3 * (fun a b => a * a * b) 2 (3 - 1) }) := by
  have h := (C9_pow_rule (α := ℚ) (fun a b => a * a * b)
    [{ id := 0, op := GradGraph.GradOp.OP_CONSTANT, value := (2 : ℚ), grad := 0,
       left := none, right := none, requires_grad := true, visited := false },
     { id := 1, op := GradGraph.GradOp.OP_CONSTANT, value := 3, grad := 0,
       left := none, right := none, requires_grad := true, visited := false },
     { id := 2, op := GradGraph.GradOp.OP_POW, value := (8 : ℚ), grad := 1,
       left := some 0, right := some 1, requires_grad := true,
       visited := false }] 2 0 1 _ rfl rfl rfl rfl).1
  simpa using h

/-- C4 amended: in the pointer-graph implementation a binary operator
result while recording has requires_grad = (a tracked || b tracked); in
the flat-tape implementation, during an active non-full session the
result always receives a tape index, and the operation node carrying
operand links is recorded iff a is tracked AND b is tracked — with at
most one tracked operand the result is the parentless OP_NONE leaf, so
no gradient can flow through it into the operands. -/
theorem C4_binary_tracking {α : Type} [Field α] [DecidableEq α]
    (va vb ga gb : α) (ra rb : Bool) (ns : List Nat) (capg : Nat)
    (cap : Nat) (a b : Stdlib.ScalarVar α) (t : Stdlib.Tape α)
    (hact : t.active = true) (hroom : t.nodes.length + 1 < cap) :
    ((GradGraph.heapGet
      (GradGraph.gul_var_add 0 1
        { heap :=
            [{ id := 0, op := GradGraph.GradOp.OP_CONSTANT, value := va, grad := ga,
               left := none, right := none, requires_grad := ra, visited := false },
             { id := 1, op := GradGraph.GradOp.OP_CONSTANT, value := vb, grad := gb,
               left := none, right := none, requires_grad := rb, visited := false }],
          ctx := some { nodes := ns, capacity := capg, is_recording := true } }).2.heap
      (GradGraph.gul_var_add 0 1
        { heap :=
            [{ id := 0, op := GradGraph.GradOp.OP_CONSTANT, value := va, grad := ga,
               left := none, right := none, requires_grad := ra, visited := false },
             { id := 1, op := GradGraph.GradOp.OP_CONSTANT, value := vb, grad := gb,
               left := none, right := none, requires_grad := rb, visited := false }],
          ctx := some { nodes := ns, capacity := capg, is_recording := true } }).1).requires_grad =
      (ra || rb)) ∧
    ((0 ≤ a.index ∧ 0 ≤ b.index) →
      Stdlib.gul_var_add cap a b t =
        ({ value := a.value + b.value, index := (t.nodes.length : Int) + 1 },
         { nodes := t.nodes ++
            [{ op := Stdlib.OpType.OP_NONE, value := a.value + b.value, grad := 0,
               parents := (-1, -1) },
             { op := Stdlib.OpType.OP_ADD, value := a.value + b.value, grad := 0,
               parents := (a.index, b.index) }],
           active := true })) ∧
    (¬(0 ≤ a.index ∧ 0 ≤ b.index) →
      Stdlib.gul_var_add cap a b t =
        ({ value := a.value + b.value, index := (t.nodes.length : Int) },
         { nodes := t.nodes ++
            [{ op := Stdlib.OpType.OP_NONE, value := a.value + b.value, grad := 0,
               parents := (-1, -1) }],
           active := true })) := by
  have h := Stdlib.gul_var_add_active_cases cap a b t hact hroom
  exact ⟨GradGraph.gul_var_add_requires_grad va vb ga gb ra rb ns capg, h.1, h.2⟩

/-- C4 witness: adding a tracked and an untracked operand on an empty
active tape of capacity 10 appends only the OP_NONE leaf. -/
theorem C4_binary_tracking_witness :
    Stdlib.gul_var_add 10 { value := (2 : ℚ), index := 0 }
        { value := 3, index := -1 } { nodes := [], active := true } =
      ({ value := 2 + 3, index := 0 },
       { nodes := [{ op := Stdlib.OpType.OP_NONE, value := 2 + 3, grad := 0,
                     parents := (-1, -1) }],
         active := true }) := by
  have h := (C4_binary_tracking (α := ℚ) 2 3 0 0 true false [0, 1] 1024 10
    { value := (2 : ℚ), index := 0 } { value := 3, index := -1 }
    { nodes := [], active := true } rfl (by norm_num)).2.2 (by norm_num)
  simpa using h

/-- C4 counterexample: with both operands untracked but a session
active, add(a, b) still lands on the tape (index 0, not untracked) and
backward on it leaves it with gradient 1 — so "tracked iff a tracked or
b tracked" fails in the flat-tape implementation. -/
theorem C4_counterexample :
    (Stdlib.tapeUntrackedAddProg (fun q : ℚ => q) 2 3).1.index = 0 ∧
    Stdlib.gul_var_grad (Stdlib.tapeUntrackedAddProg (fun q : ℚ => q) 2 3).1
        (Stdlib.tapeUntrackedAddProg (fun q : ℚ => q) 2 3).2 = 1 ∧
    (1 : ℚ) ≠ 0 := by
  rw [Stdlib.tapeUntrackedAddProg_eq]
  refine ⟨rfl, ?_, by norm_num⟩
  show (if (0 : Int) ≤ 0 ∧ (0 : Int) < ((1 : Nat) : Int) then _ else 0) = (1 : ℚ)
  norm_num

/-- C6 amended: the flat tape treats capacity as a fixed bound — a full
session leaves further operator calls with a correct forward value, an
untracked (index -1) result whose gradient queries return 0, and an
unchanged tape; the pointer graph instead doubles its capacity when full
and appends anyway, so its session grows and tracking continues. -/
theorem C6_capacity_fixed_vs_doubling {α : Type} [Field α] [DecidableEq α]
    (cap : Nat) (a b : Stdlib.ScalarVar α) (t : Stdlib.Tape α) (val : α)
    (t2 : Stdlib.Tape α) (op : GradGraph.GradOp) (value : α)
    (l r : Option Nat) (heapL : List (GradGraph.GraphNode α)) (ns : List Nat)
    (capg : Nat) (hact : t.active = true) (hfull : cap ≤ t.nodes.length)
    (hfullg : capg ≤ ns.length) :
    Stdlib.gul_var_add cap a b t =
      ({ value := a.value + b.value, index := -1 }, t) ∧
    Stdlib.gul_var_grad { value := val, index := -1 } t2 = 0 ∧
    (GradGraph.create_node op value l r
        { heap := heapL,
          ctx := some { nodes := ns, capacity := capg, is_recording := true } }).2.ctx =
      some { nodes := ns ++ [heapL.length], capacity := capg * 2,
             is_recording := true } ∧
    (GradGraph.create_node op value l r
        { heap := heapL,
          ctx := some { nodes := ns, capacity := capg, is_recording := true } }).2.heap.length =
      heapL.length + 1 := by
  have h := GradGraph.create_node_full_doubles op value l r heapL ns capg hfullg
  exact ⟨Stdlib.gul_var_add_full cap a b t hact hfull,
    Stdlib.gul_var_grad_untracked val t2, h.1, h.2⟩

/-- C6 witness: on a full (capacity 0) active tape, add still returns the
correct forward value untracked and leaves the tape unchanged. -/
theorem C6_capacity_witness :
    Stdlib.gul_var_add 0 { value := (2 : ℚ), index := 0 }
        { value := 3, index := 1 } { nodes := [], active := true } =
      ({ value := 2 + 3, index := -1 }, { nodes := [], active := true }) :=
  (C6_capacity_fixed_vs_doubling 0 { value := (2 : ℚ), index := 0 }
    { value := 3, index := 1 } { nodes := [], active := true } 7
    { nodes := [], active := false } GradGraph.GradOp.OP_ADD 1 none none [] []
    0 rfl (Nat.le_refl 0) (Nat.le_refl 0)).1

/-- C6 counterexample: a pointer-graph session configured with capacity 1
accepts two variables and their product: it ends with three recorded
nodes and capacity doubled twice to 4, and the third (tracked-eligible)
call's result still has requires_grad — the session grew and tracking
never stopped. -/
theorem C6_counterexample :
    (GradGraph.graphCapProg (α := ℚ) 1 2 3).2.ctx =
      some { nodes := [0, 1, 2], capacity := 4, is_recording := true } ∧
    (GradGraph.heapGet (GradGraph.graphCapProg (α := ℚ) 1 2 3).2.heap
        (GradGraph.graphCapProg (α := ℚ) 1 2 3).1.2.2).requires_grad = true := by
  rw [GradGraph.graphCapProg_eq]
  exact ⟨rfl, rfl⟩

/-- C7 amended: in the flat-tape implementation a Variable created while
no session is active has the correct forward value, is not appended, and
its gradient queries always return 0, with backward on it a no-op; in
the pointer-graph implementation the same holds except that gul_backward
stamps gradient 1.0 on whatever root it is handed — after backward(h)
with the untracked h itself as root, gradient(h) returns 1, not 0. -/
theorem C7_untracked_variables {α : Type} [Field α] [DecidableEq α]
    (cosF : α → α) (powF : α → α → α) (cap : Nat) (val : α)
    (a b : Stdlib.ScalarVar α) (t : Stdlib.Tape α) (x y : α)
    (h : t.active = false) :
    Stdlib.gul_make_var cap val t = ({ value := val, index := -1 }, t) ∧
    Stdlib.gul_var_add cap a b t =
      ({ value := a.value + b.value, index := -1 }, t) ∧
    (∀ t2 : Stdlib.Tape α,
      Stdlib.gul_var_grad { value := val, index := -1 } t2 = 0) ∧
    (∀ t2 : Stdlib.Tape α,
      Stdlib.gul_backward cosF { value := val, index := -1 } t2 = t2) ∧
    GradGraph.gul_var_value (GradGraph.graphUntrackedProg powF x y).1
      (GradGraph.graphUntrackedProg powF x y).2 = x + y ∧
    (GradGraph.heapGet (GradGraph.graphUntrackedProg powF x y).2.heap
      (GradGraph.graphUntrackedProg powF x y).1).requires_grad = false ∧
    GradGraph.gul_var_grad (GradGraph.graphUntrackedProg powF x y).1
      (GradGraph.graphUntrackedProg powF x y).2 = 1 := by
  refine ⟨Stdlib.gul_make_var_inactive cap val t h,
    Stdlib.gul_var_add_inactive cap a b t h,
    fun t2 => Stdlib.gul_var_grad_untracked val t2,
    fun t2 => Stdlib.gul_backward_untracked cosF val t2, ?_, ?_, ?_⟩
  · rw [GradGraph.graphUntrackedProg_eq]
    rfl
  · rw [GradGraph.graphUntrackedProg_eq]
    rfl
  · rw [GradGraph.graphUntrackedProg_eq]
    rfl

/-- C7 witness: creating a variable on an inactive tape returns the value
with index -1 and leaves the tape unchanged. -/
theorem C7_untracked_witness :
    Stdlib.gul_make_var 10 (5 : ℚ) { nodes := [], active := false } =
      ({ value := 5, index := -1 }, { nodes := [], active := false }) :=
  (C7_untracked_variables (fun q : ℚ => q) (fun _ _ => 0) 10 5
    { value := 0, index := -1 } { value := 0, index := -1 }
    { nodes := [], active := false } 0 0 rfl).1

/-- C7 counterexample: r = add(a, b) built while no graph session exists
is untracked (requires_grad false), yet after gul_backward(r) its
gradient query returns 1, not 0. -/
theorem C7_counterexample :
    GradGraph.gul_var_grad
        (GradGraph.graphUntrackedProg (fun _ _ : ℚ => (0 : ℚ)) 5 3).1
        (GradGraph.graphUntrackedProg (fun _ _ : ℚ => (0 : ℚ)) 5 3).2 = 1 ∧
    (1 : ℚ) ≠ 0 := by
  rw [GradGraph.graphUntrackedProg_eq]
  exact ⟨rfl, by norm_num⟩

/-- C8: the division backward rule: for every a, b the div node propagates
+g/valueB into operandA and -g·valueA/valueB² into operandB, and at the
claim's instance a = 6, b = 3 the gradients are 1/3 and -(2/3). -/
theorem C8_division_rule {α : Type} [Field α] [DecidableEq α]
    (powF : α → α → α) :
    (∀ av bv : α,
      GradGraph.gul_var_grad (GradGraph.graphDivProg powF av bv).1.1
          (GradGraph.graphDivProg powF av bv).2 = 1 / bv ∧
      GradGraph.gul_var_grad (GradGraph.graphDivProg powF av bv).1.2.1
          (GradGraph.graphDivProg powF av bv).2 = -(av / (bv * bv))) ∧
    GradGraph.gul_var_grad (GradGraph.graphDivProg powF 6 3).1.1
        (GradGraph.graphDivProg powF 6 3).2 = 1 / 3 ∧
    GradGraph.gul_var_grad (GradGraph.graphDivProg powF 6 3).1.2.1
        (GradGraph.graphDivProg powF 6 3).2 = -(2 / 3) := by
  have hgen : ∀ av bv : α,
      GradGraph.gul_var_grad (GradGraph.graphDivProg powF av bv).1.1
          (GradGraph.graphDivProg powF av bv).2 = 1 / bv ∧
      GradGraph.gul_var_grad (GradGraph.graphDivProg powF av bv).1.2.1
          (GradGraph.graphDivProg powF av bv).2 = -(av / (bv * bv)) := by
    intro av bv
    rw [GradGraph.graphDivProg_eq]
    constructor
    · show (0 : α) + 1 / bv = 1 / bv
      ring
    · show (0 : α) - 1 * av / (bv * bv) = -(av / (bv * bv))
      ring
  refine ⟨hgen, (hgen 6 3).1, ?_⟩
  rw [(hgen 6 3).2]
  rcases eq_or_ne (3 : α) 0 with h3 | h3
  · rw [h3]
    simp
  · field_simp
    norm_num

namespace Stdlib

variable {α : Type} [Field α] [DecidableEq α]

/-- From a successful get?: the index is in range and getD returns the
element. -/
theorem get?_some_facts {β : Type} :
    ∀ (ns : List β) (k : Nat) (n d : β), ns.get? k = some n →
      k < ns.length ∧ ns.getD k d = n := by
  intro ns
  induction ns with
  | nil => intro k n d h; simp at h
  | cons a l ih =>
      intro k n d h
      cases k with
      | zero => simp at h; simp [h, List.getD]
      | succ k =>
          simp only [List.get?] at h
          have := ih k n d h
          exact ⟨by simpa using Nat.succ_lt_succ this.1, by simpa [List.getD] using this.2⟩

theorem sameStruct_refl (ns : List (Node α)) : sameStruct ns ns :=
  ⟨rfl, fun _ => ⟨rfl, rfl, rfl⟩⟩

theorem sameStruct_trans {ns ms ks : List (Node α)}
    (h1 : sameStruct ns ms) (h2 : sameStruct ms ks) : sameStruct ns ks := by
  refine ⟨h2.1.trans h1.1, fun j => ?_⟩
  obtain ⟨o1, v1, p1⟩ := h1.2 j
  obtain ⟨o2, v2, p2⟩ := h2.2 j
  exact ⟨o2.trans o1, v2.trans v1, p2.trans p1⟩

theorem modifyGrad_sameStruct (ns : List (Node α)) (k : Nat) (f : α → α) :
    sameStruct ns (modifyGrad ns k f) := by
  unfold modifyGrad
  cases h : ns.get? k with
  | none => exact sameStruct_refl ns
  | some n =>
      obtain ⟨hk, hget⟩ := get?_some_facts ns k n dummyNode h
      refine ⟨List.length_set ns k _, fun j => ?_⟩
      by_cases hj : j = k
      · subst hj
        rw [show (ns.set j { n with grad := f n.grad }).getD j dummyNode =
            { n with grad := f n.grad } from by
          simp [List.getD, List.getElem?_set_self hk]]
        rw [hget]
        exact ⟨rfl, rfl, rfl⟩
      · rw [show (ns.set k { n with grad := f n.grad }).getD j dummyNode =
            ns.getD j dummyNode from by
          simp [List.getD, List.getElem?_set_ne (Ne.symm hj)]]
        exact ⟨rfl, rfl, rfl⟩

/-- modifyGrad leaves every other index completely unchanged. -/
theorem modifyGrad_getD_ne (ns : List (Node α)) (k j : Nat) (f : α → α)
    (hj : j ≠ k) : (modifyGrad ns k f).getD j dummyNode = ns.getD j dummyNode := by
  unfold modifyGrad
  cases h : ns.get? k with
  | none => rfl
  | some n => simp [List.getD, List.getElem?_set_ne (Ne.symm hj)]

omit [Field α] [DecidableEq α] in
theorem toNat_ne_of_ne {p : Int} {j : Nat} (hp : 0 ≤ p) (hne : p ≠ (j : Int)) :
    p.toNat ≠ j := by
  intro heq
  exact hne (by rw [← Int.toNat_of_nonneg hp, heq])

/-- One loop iteration preserves tape structure. -/
theorem backward_step_sameStruct (cosF : α → α) (i : Nat)
    (ns : List (Node α)) : sameStruct ns (backward_step cosF i ns) := by
  rw [backward_step_eq_noCheck]
  unfold backward_stepNC
  cases hop : (ns.getD i dummyNode).op <;> simp only [hop] <;>
    first
      | exact sameStruct_refl ns
      | (split_ifs <;>
          first
            | exact sameStruct_refl ns
            | exact modifyGrad_sameStruct ns _ _
            | exact sameStruct_trans (modifyGrad_sameStruct ns _ _)
                (modifyGrad_sameStruct _ _ _))

/-- One loop iteration leaves index j untouched when node i's parents do
not point at j. -/
theorem backward_step_getD_ne (cosF : α → α) (i : Nat) (ns : List (Node α))
    (j : Nat) (hp1 : (ns.getD i dummyNode).parents.1 ≠ (j : Int))
    (hp2 : (ns.getD i dummyNode).parents.2 ≠ (j : Int)) :
    (backward_step cosF i ns).getD j dummyNode = ns.getD j dummyNode := by
  rw [backward_step_eq_noCheck]
  unfold backward_stepNC
  cases hop : (ns.getD i dummyNode).op <;> simp only [hop] <;>
    first
      | rfl
      | (split_ifs <;>
          first
            | rfl
            | (rw [modifyGrad_getD_ne _ _ _ _ (toNat_ne_of_ne (by assumption) hp1).symm])
            | (rw [modifyGrad_getD_ne _ _ _ _ (toNat_ne_of_ne (by assumption) hp2).symm,
                modifyGrad_getD_ne _ _ _ _ (toNat_ne_of_ne (by assumption) hp1).symm])
            | (rw [modifyGrad_getD_ne _ _ _ _ (toNat_ne_of_ne (by assumption) hp2).symm]))

/-- The descending loop preserves tape structure. -/
theorem backward_loop_sameStruct (cosF : α → α) :
    ∀ (i : Nat) (ns : List (Node α)), sameStruct ns (backward_loop cosF i ns)
  | 0, ns => by
      rw [backward_loop]
      exact backward_step_sameStruct cosF 0 ns
  | i + 1, ns => by
      rw [backward_loop]
      exact sameStruct_trans (backward_step_sameStruct cosF (i + 1) ns)
        (backward_loop_sameStruct cosF i _)

/-- The descending loop leaves index j untouched when no node's parents
point at j. -/
theorem backward_loop_getD_ne (cosF : α → α) :
    ∀ (i : Nat) (ns : List (Node α)) (j : Nat),
    (∀ m : Nat, (ns.getD m dummyNode).parents.1 ≠ (j : Int) ∧
      (ns.getD m dummyNode).parents.2 ≠ (j : Int)) →
    (backward_loop cosF i ns).getD j dummyNode = ns.getD j dummyNode
  | 0, ns, j, hpar => by
      rw [backward_loop]
      exact backward_step_getD_ne cosF 0 ns j (hpar 0).1 (hpar 0).2
  | i + 1, ns, j, hpar => by
      rw [backward_loop]
      have hstep := backward_step_sameStruct cosF (i + 1) ns
      have hpar2 : ∀ m : Nat,
          ((backward_step cosF (i + 1) ns).getD m dummyNode).parents.1 ≠ (j : Int) ∧
          ((backward_step cosF (i + 1) ns).getD m dummyNode).parents.2 ≠ (j : Int) := by
        intro m
        rw [(hstep.2 m).2.2]
        exact hpar m
      rw [backward_loop_getD_ne cosF i _ j hpar2]
      exact backward_step_getD_ne cosF (i + 1) ns j (hpar (i + 1)).1 (hpar (i + 1)).2

/-- gul_run_backward preserves tape structure and the active flag. -/
theorem gul_run_backward_sameStruct (cosF : α → α) (r : Int) (t : Tape α) :
    sameStruct t.nodes (gul_run_backward cosF r t).nodes ∧
    (gul_run_backward cosF r t).active = t.active := by
  unfold gul_run_backward
  split_ifs
  · exact ⟨sameStruct_refl _, rfl⟩
  · exact ⟨sameStruct_trans (modifyGrad_sameStruct _ _ _)
      (backward_loop_sameStruct cosF _ _), rfl⟩

/-- gul_run_backward leaves index j untouched when the root is not j and
no node's parents point at j. -/
theorem gul_run_backward_getD_ne (cosF : α → α) (r : Int) (t : Tape α)
    (j : Nat) (hroot : r ≠ (j : Int))
    (hpar : ∀ m : Nat, (t.nodes.getD m dummyNode).parents.1 ≠ (j : Int) ∧
      (t.nodes.getD m dummyNode).parents.2 ≠ (j : Int)) :
    (gul_run_backward cosF r t).nodes.getD j dummyNode =
      t.nodes.getD j dummyNode := by
  unfold gul_run_backward
  split_ifs with hb
  · rfl
  · have hr : (0 : Int) ≤ r := by omega
    have hmod := modifyGrad_sameStruct t.nodes r.toNat (fun _ => (1 : α))
    have hpar2 : ∀ m : Nat,
        ((modifyGrad t.nodes r.toNat (fun _ => (1 : α))).getD m dummyNode).parents.1 ≠ (j : Int) ∧
        ((modifyGrad t.nodes r.toNat (fun _ => (1 : α))).getD m dummyNode).parents.2 ≠ (j : Int) := by
      intro m
      rw [(hmod.2 m).2.2]
      exact hpar m
    rw [backward_loop_getD_ne cosF _ _ j hpar2,
      modifyGrad_getD_ne _ _ _ _ (toNat_ne_of_ne hr hroot).symm]

end Stdlib

namespace Stdlib

variable {α : Type} [Field α] [DecidableEq α]

/-- gul_make_var on an active non-full tape appends one OP_NONE leaf. -/
theorem gul_make_var_active (cap : Nat) (val : α) (t : Tape α)
    (hact : t.active = true) (hroom : t.nodes.length < cap) :
    gul_make_var cap val t =
      ({ value := val, index := (t.nodes.length : Int) },
       { nodes := t.nodes ++
          [{ op := OpType.OP_NONE, value := val, grad := 0, parents := (-1, -1) }],
         active := true }) := by
  obtain ⟨ns, act⟩ := t
  simp only at hact hroom
  subst hact
  simp only [gul_make_var, tape_add_node, Bool.not_true, Bool.false_eq_true,
    if_false, if_true]
  rw [if_neg (by omega : ¬ cap ≤ ns.length)]

/-- gul_make_var on an active full tape returns index -1 and leaves the
tape unchanged. -/
theorem gul_make_var_active_full (cap : Nat) (val : α) (t : Tape α)
    (hact : t.active = true) (hfull : cap ≤ t.nodes.length) :
    gul_make_var cap val t = ({ value := val, index := -1 }, t) := by
  obtain ⟨ns, act⟩ := t
  simp only at hact hfull
  subst hact
  simp only [gul_make_var, tape_add_node, Bool.not_true, Bool.false_eq_true,
    if_false, if_true]
  rw [if_pos hfull]

/-- gul_var_add on an active tape with exactly one free slot: the orphan
OP_NONE node fills the tape; the OP_ADD append then fails, so with both
operands tracked the result degrades to index -1. -/
theorem gul_var_add_one_slot (cap : Nat) (a b : ScalarVar α) (t : Tape α)
    (hact : t.active = true) (hcap : cap = t.nodes.length + 1) :
    ((0 ≤ a.index ∧ 0 ≤ b.index) →
      gul_var_add cap a b t =
        ({ value := a.value + b.value, index := -1 },
         { nodes := t.nodes ++
            [{ op := OpType.OP_NONE, value := a.value + b.value, grad := 0,
               parents := (-1, -1) }],
           active := true })) ∧
    (¬(0 ≤ a.index ∧ 0 ≤ b.index) →
      gul_var_add cap a b t =
        ({ value := a.value + b.value, index := (t.nodes.length : Int) },
         { nodes := t.nodes ++
            [{ op := OpType.OP_NONE, value := a.value + b.value, grad := 0,
               parents := (-1, -1) }],
           active := true })) := by
  obtain ⟨ns, act⟩ := t
  simp only at hact hcap
  subst hact
  constructor
  · intro hab
    simp only [gul_var_add, gul_make_var, tape_add_node, Bool.not_true,
      Bool.false_eq_true, if_false, if_true]
    rw [if_neg (by omega : ¬ cap ≤ ns.length)]
    rw [if_pos ⟨rfl, hab.1, hab.2⟩]
    simp only [Bool.not_true, Bool.false_eq_true, if_false, if_true,
      List.length_append, List.length_cons, List.length_nil]
    rw [if_pos (by omega : cap ≤ ns.length + 1)]
  · intro hab
    simp only [gul_var_add, gul_make_var, tape_add_node, Bool.not_true,
      Bool.false_eq_true, if_false, if_true]
    rw [if_neg (by omega : ¬ cap ≤ ns.length)]
    rw [if_neg (by
      intro hcon
      exact hab ⟨hcon.2.1, hcon.2.2⟩)]

/-- gul_var_mul inside an active session with room for both nodes
(mirror of gul_var_add_active_cases). -/
theorem gul_var_mul_active_cases (cap : Nat) (a b : ScalarVar α) (t : Tape α)
    (hact : t.active = true) (hroom : t.nodes.length + 1 < cap) :
    ((0 ≤ a.index ∧ 0 ≤ b.index) →
      gul_var_mul cap a b t =
        ({ value := a.value * b.value, index := (t.nodes.length : Int) + 1 },
         { nodes := t.nodes ++
            [{ op := OpType.OP_NONE, value := a.value * b.value, grad := 0,
               parents := (-1, -1) },
             { op := OpType.OP_MUL, value := a.value * b.value, grad := 0,
               parents := (a.index, b.index) }],
           active := true })) ∧
    (¬(0 ≤ a.index ∧ 0 ≤ b.index) →
      gul_var_mul cap a b t =
        ({ value := a.value * b.value, index := (t.nodes.length : Int) },
         { nodes := t.nodes ++
            [{ op := OpType.OP_NONE, value := a.value * b.value, grad := 0,
               parents := (-1, -1) }],
           active := true })) := by
  obtain ⟨ns, act⟩ := t
  simp only at hact hroom
  subst hact
  constructor
  · intro hab
    simp only [gul_var_mul, gul_make_var, tape_add_node, Bool.not_true,
      Bool.false_eq_true, if_false, if_true]
    rw [if_neg (by omega : ¬ cap ≤ ns.length)]
    rw [if_pos ⟨rfl, hab.1, hab.2⟩]
    simp only [Bool.not_true, Bool.false_eq_true, if_false, if_true,
      List.length_append, List.length_cons, List.length_nil]
    rw [if_neg (by omega : ¬ cap ≤ ns.length + 1)]
    simp [List.append_assoc]
  · intro hab
    simp only [gul_var_mul, gul_make_var, tape_add_node, Bool.not_true,
      Bool.false_eq_true, if_false, if_true]
    rw [if_neg (by omega : ¬ cap ≤ ns.length)]
    rw [if_neg (by
      intro hcon
      exact hab ⟨hcon.2.1, hcon.2.2⟩)]

/-- gul_var_mul on a full active tape (mirror of gul_var_add_full). -/
theorem gul_var_mul_full (cap : Nat) (a b : ScalarVar α) (t : Tape α)
    (hact : t.active = true) (hfull : cap ≤ t.nodes.length) :
    gul_var_mul cap a b t = ({ value := a.value * b.value, index := -1 }, t) := by
  obtain ⟨ns, act⟩ := t
  simp only at hact hfull
  subst hact
  simp only [gul_var_mul, gul_make_var, tape_add_node, Bool.not_true,
    Bool.false_eq_true, if_false, if_true]
  rw [if_pos hfull]
  by_cases hab : (0 : Int) ≤ a.index ∧ (0 : Int) ≤ b.index
  · rw [if_pos ⟨rfl, hab.1, hab.2⟩]
    simp only [Bool.not_true, Bool.false_eq_true, if_false, if_true]
    rw [if_pos hfull]
  · rw [if_neg (by
      intro hcon
      exact hab ⟨hcon.2.1, hcon.2.2⟩)]

/-- gul_var_mul with one free slot (mirror of gul_var_add_one_slot). -/
theorem gul_var_mul_one_slot (cap : Nat) (a b : ScalarVar α) (t : Tape α)
    (hact : t.active = true) (hcap : cap = t.nodes.length + 1) :
    ((0 ≤ a.index ∧ 0 ≤ b.index) →
      gul_var_mul cap a b t =
        ({ value := a.value * b.value, index := -1 },
         { nodes := t.nodes ++
            [{ op := OpType.OP_NONE, value := a.value * b.value, grad := 0,
               parents := (-1, -1) }],
           active := true })) ∧
    (¬(0 ≤ a.index ∧ 0 ≤ b.index) →
      gul_var_mul cap a b t =
        ({ value := a.value * b.value, index := (t.nodes.length : Int) },
         { nodes := t.nodes ++
            [{ op := OpType.OP_NONE, value := a.value * b.value, grad := 0,
               parents := (-1, -1) }],
           active := true })) := by
  obtain ⟨ns, act⟩ := t
  simp only at hact hcap
  subst hact
  constructor
  · intro hab
    simp only [gul_var_mul, gul_make_var, tape_add_node, Bool.not_true,
      Bool.false_eq_true, if_false, if_true]
    rw [if_neg (by omega : ¬ cap ≤ ns.length)]
    rw [if_pos ⟨rfl, hab.1, hab.2⟩]
    simp only [Bool.not_true, Bool.false_eq_true, if_false, if_true,
      List.length_append, List.length_cons, List.length_nil]
    rw [if_pos (by omega : cap ≤ ns.length + 1)]
  · intro hab
    simp only [gul_var_mul, gul_make_var, tape_add_node, Bool.not_true,
      Bool.false_eq_true, if_false, if_true]
    rw [if_neg (by omega : ¬ cap ≤ ns.length)]
    rw [if_neg (by
      intro hcon
      exact hab ⟨hcon.2.1, hcon.2.2⟩)]

/-- gul_var_sin inside an active session with room for both nodes. -/
theorem gul_var_sin_active_cases (cap : Nat) (sinF : α → α) (a : ScalarVar α)
    (t : Tape α) (hact : t.active = true) (hroom : t.nodes.length + 1 < cap) :
    (0 ≤ a.index →
      gul_var_sin cap sinF a t =
        ({ value := sinF a.value, index := (t.nodes.length : Int) + 1 },
         { nodes := t.nodes ++
            [{ op := OpType.OP_NONE, value := sinF a.value, grad := 0,
               parents := (-1, -1) },
             { op := OpType.OP_SIN, value := sinF a.value, grad := 0,
               parents := (a.index, -1) }],
           active := true })) ∧
    (¬ 0 ≤ a.index →
      gul_var_sin cap sinF a t =
        ({ value := sinF a.value, index := (t.nodes.length : Int) },
         { nodes := t.nodes ++
            [{ op := OpType.OP_NONE, value := sinF a.value, grad := 0,
               parents := (-1, -1) }],
           active := true })) := by
  obtain ⟨ns, act⟩ := t
  simp only at hact hroom
  subst hact
  constructor
  · intro ha
    simp only [gul_var_sin, gul_make_var, tape_add_node, Bool.not_true,
      Bool.false_eq_true, if_false, if_true]
    rw [if_neg (by omega : ¬ cap ≤ ns.length)]
    rw [if_pos ⟨rfl, ha⟩]
    simp only [Bool.not_true, Bool.false_eq_true, if_false, if_true,
      List.length_append, List.length_cons, List.length_nil]
    rw [if_neg (by omega : ¬ cap ≤ ns.length + 1)]
    simp [List.append_assoc]
  · intro ha
    simp only [gul_var_sin, gul_make_var, tape_add_node, Bool.not_true,
      Bool.false_eq_true, if_false, if_true]
    rw [if_neg (by omega : ¬ cap ≤ ns.length)]
    rw [if_neg (by
      intro hcon
      exact ha hcon.2)]

/-- gul_var_sin on a full active tape. -/
theorem gul_var_sin_full (cap : Nat) (sinF : α → α) (a : ScalarVar α)
    (t : Tape α) (hact : t.active = true) (hfull : cap ≤ t.nodes.length) :
    gul_var_sin cap sinF a t = ({ value := sinF a.value, index := -1 }, t) := by
  obtain ⟨ns, act⟩ := t
  simp only at hact hfull
  subst hact
  simp only [gul_var_sin, gul_make_var, tape_add_node, Bool.not_true,
    Bool.false_eq_true, if_false, if_true]
  rw [if_pos hfull]
  by_cases ha : (0 : Int) ≤ a.index
  · rw [if_pos ⟨rfl, ha⟩]
    simp only [Bool.not_true, Bool.false_eq_true, if_false, if_true]
    rw [if_pos hfull]
  · rw [if_neg (by
      intro hcon
      exact ha hcon.2)]

/-- gul_var_sin with one free slot. -/
theorem gul_var_sin_one_slot (cap : Nat) (sinF : α → α) (a : ScalarVar α)
    (t : Tape α) (hact : t.active = true) (hcap : cap = t.nodes.length + 1) :
    (0 ≤ a.index →
      gul_var_sin cap sinF a t =
        ({ value := sinF a.value, index := -1 },
         { nodes := t.nodes ++
            [{ op := OpType.OP_NONE, value := sinF a.value, grad := 0,
               parents := (-1, -1) }],
           active := true })) ∧
    (¬ 0 ≤ a.index →
      gul_var_sin cap sinF a t =
        ({ value := sinF a.value, index := (t.nodes.length : Int) },
         { nodes := t.nodes ++
            [{ op := OpType.OP_NONE, value := sinF a.value, grad := 0,
               parents := (-1, -1) }],
           active := true })) := by
  obtain ⟨ns, act⟩ := t
  simp only at hact hcap
  subst hact
  constructor
  · intro ha
    simp only [gul_var_sin, gul_make_var, tape_add_node, Bool.not_true,
      Bool.false_eq_true, if_false, if_true]
    rw [if_neg (by omega : ¬ cap ≤ ns.length)]
    rw [if_pos ⟨rfl, ha⟩]
    simp only [Bool.not_true, Bool.false_eq_true, if_false, if_true,
      List.length_append, List.length_cons, List.length_nil]
    rw [if_pos (by omega : cap ≤ ns.length + 1)]
  · intro ha
    simp only [gul_var_sin, gul_make_var, tape_add_node, Bool.not_true,
      Bool.false_eq_true, if_false, if_true]
    rw [if_neg (by omega : ¬ cap ≤ ns.length)]
    rw [if_neg (by
      intro hcon
      exact ha hcon.2)]

end Stdlib

namespace Stdlib

variable {α : Type} [Field α] [DecidableEq α]

theorem getD_append_self (ns : List (Node α)) (x : Node α) :
    (ns ++ [x]).getD ns.length dummyNode = x := by
  rw [List.getD_append_right ns [x] dummyNode ns.length (Nat.le_refl _)]
  simp

theorem getD_append_two_left (ns : List (Node α)) (x y : Node α) :
    (ns ++ [x, y]).getD ns.length dummyNode = x := by
  rw [List.getD_append_right ns [x, y] dummyNode ns.length (Nat.le_refl _)]
  simp

theorem getD_append_two_self (ns : List (Node α)) (x y : Node α) :
    (ns ++ [x, y]).getD (ns.length + 1) dummyNode = y := by
  rw [List.getD_append_right ns [x, y] dummyNode (ns.length + 1) (by omega)]
  simp

theorem getD_len_ge (ns : List (Node α)) (m : Nat) (h : ns.length ≤ m) :
    ns.getD m dummyNode = dummyNode := by
  simp [List.getD, List.getElem?_eq_none h]

/-- Appending nothing and recording an untracked handle preserves the
invariant. -/
theorem inv_no_append (ns : List (Node α)) (env : List (ScalarVar α)) (v2 : α)
    (hinv : TapeInv ⟨⟨ns, true⟩, env⟩) :
    TapeInv ⟨⟨ns, true⟩, env ++ [⟨v2, -1⟩]⟩ := by
  obtain ⟨-, henv, hpar, horph⟩ := hinv
  refine ⟨rfl, ?_, hpar, ?_⟩
  · intro h2 hmem
    rcases List.mem_append.mp hmem with hold | hnew
    · exact henv h2 hold
    · rw [List.mem_singleton.mp hnew]
      show (-1 : Int) < (ns.length : Int)
      omega
  · intro p hp hop
    obtain ⟨q, hq, ho, hg, hpp, henvq, hparq⟩ := horph p hp hop
    refine ⟨q, hq, ho, hg, hpp, ?_, hparq⟩
    intro h2 hmem
    rcases List.mem_append.mp hmem with hold | hnew
    · exact henvq h2 hold
    · rw [List.mem_singleton.mp hnew]
      show (-1 : Int) ≠ (q : Int)
      omega

/-- Appending one OP_NONE leaf and recording a handle that is either
untracked or points at the new leaf preserves the invariant. -/
theorem inv_append_leaf (ns : List (Node α)) (env : List (ScalarVar α))
    (v v2 : α) (hi : Int) (hinv : TapeInv ⟨⟨ns, true⟩, env⟩)
    (hidx : hi = -1 ∨ hi = (ns.length : Int)) :
    TapeInv ⟨⟨ns ++ [⟨OpType.OP_NONE, v, 0, (-1, -1)⟩], true⟩,
      env ++ [⟨v2, hi⟩]⟩ := by
  obtain ⟨-, henv, hpar, horph⟩ := hinv
  refine ⟨rfl, ?_, ?_, ?_⟩
  · intro h2 hmem
    show h2.index < ((ns ++ [(⟨OpType.OP_NONE, v, 0, (-1, -1)⟩ : Node α)]).length : Int)
    rw [List.length_append]
    rcases List.mem_append.mp hmem with hold | hnew
    · have hlt : h2.index < (ns.length : Int) := henv h2 hold
      simp only [List.length_cons, List.length_nil]
      omega
    · rw [List.mem_singleton.mp hnew]
      simp only [List.length_cons, List.length_nil]
      rcases hidx with h | h <;> rw [h] <;> omega
  · intro m hm
    show ((ns ++ [(⟨OpType.OP_NONE, v, 0, (-1, -1)⟩ : Node α)]).getD m dummyNode).parents.1 < (m : Int) ∧
      ((ns ++ [(⟨OpType.OP_NONE, v, 0, (-1, -1)⟩ : Node α)]).getD m dummyNode).parents.2 < (m : Int)
    have hm2 : m < ns.length + 1 := by simpa using hm
    by_cases hmlt : m < ns.length
    · rw [List.getD_append ns _ dummyNode m hmlt]
      exact hpar m hmlt
    · have hmeq : m = ns.length := by omega
      subst hmeq
      rw [getD_append_self]
      constructor <;> · show (-1 : Int) < (ns.length : Int); omega
  · intro p hp hop
    have hp2 : p < ns.length + 1 := by simpa using hp
    by_cases hplt : p < ns.length
    · rw [List.getD_append ns _ dummyNode p hplt] at hop
      obtain ⟨q, hq, ho, hg, hpp, henvq, hparq⟩ := horph p hplt hop
      have hqlt : q < ns.length := by omega
      refine ⟨q, hq, ?_, ?_, ?_, ?_, ?_⟩
      · rw [List.getD_append ns _ dummyNode q hqlt]; exact ho
      · rw [List.getD_append ns _ dummyNode q hqlt]; exact hg
      · rw [List.getD_append ns _ dummyNode q hqlt]; exact hpp
      · intro h2 hmem
        rcases List.mem_append.mp hmem with hold | hnew
        · exact henvq h2 hold
        · rw [List.mem_singleton.mp hnew]
          show hi ≠ (q : Int)
          rcases hidx with h | h <;> rw [h] <;> omega
      · intro m hm
        have hm2 : m < ns.length + 1 := by simpa using hm
        by_cases hmlt : m < ns.length
        · rw [List.getD_append ns _ dummyNode m hmlt]
          exact hparq m hmlt
        · have hmeq : m = ns.length := by omega
          subst hmeq
          rw [getD_append_self]
          constructor <;> · show (-1 : Int) ≠ (q : Int); omega
    · have hpeq : p = ns.length := by omega
      subst hpeq
      rw [getD_append_self] at hop
      exact absurd rfl hop

end Stdlib

namespace Stdlib

variable {α : Type} [Field α] [DecidableEq α]

/-- Appending the orphan OP_NONE node plus the operation node and
recording the handle of the operation node preserves the invariant, as
long as the operation node's parents are handle indices (or -1). -/
theorem inv_append_two (ns : List (Node α)) (env : List (ScalarVar α))
    (v v2 : α) (op : OpType) (p1 p2 : Int)
    (hinv : TapeInv ⟨⟨ns, true⟩, env⟩) (hop : op ≠ OpType.OP_NONE)
    (hp1 : p1 = -1 ∨ ∃ h2 ∈ env, p1 = h2.index)
    (hp2 : p2 = -1 ∨ ∃ h2 ∈ env, p2 = h2.index) :
    TapeInv ⟨⟨ns ++ [⟨OpType.OP_NONE, v, 0, (-1, -1)⟩, ⟨op, v, 0, (p1, p2)⟩],
      true⟩, env ++ [⟨v2, (ns.length : Int) + 1⟩]⟩ := by
  obtain ⟨-, henv, hpar, horph⟩ := hinv
  have hp1lt : p1 < (ns.length : Int) := by
    rcases hp1 with h | ⟨h2, hm2, h⟩
    · omega
    · have hlt : h2.index < (ns.length : Int) := henv h2 hm2
      omega
  have hp2lt : p2 < (ns.length : Int) := by
    rcases hp2 with h | ⟨h2, hm2, h⟩
    · omega
    · have hlt : h2.index < (ns.length : Int) := henv h2 hm2
      omega
  have hlen : (ns ++ [(⟨OpType.OP_NONE, v, 0, (-1, -1)⟩ : Node α),
      ⟨op, v, 0, (p1, p2)⟩]).length = ns.length + 2 := by simp
  refine ⟨rfl, ?_, ?_, ?_⟩
  · intro h2 hmem
    show h2.index < ((ns ++ [(⟨OpType.OP_NONE, v, 0, (-1, -1)⟩ : Node α),
      ⟨op, v, 0, (p1, p2)⟩]).length : Int)
    rw [hlen]
    rcases List.mem_append.mp hmem with hold | hnew
    · have hlt : h2.index < (ns.length : Int) := henv h2 hold
      omega
    · rw [List.mem_singleton.mp hnew]
      show (ns.length : Int) + 1 < ((ns.length + 2 : Nat) : Int)
      omega
  · intro m hm
    show ((ns ++ [(⟨OpType.OP_NONE, v, 0, (-1, -1)⟩ : Node α),
        ⟨op, v, 0, (p1, p2)⟩]).getD m dummyNode).parents.1 < (m : Int) ∧
      ((ns ++ [(⟨OpType.OP_NONE, v, 0, (-1, -1)⟩ : Node α),
        ⟨op, v, 0, (p1, p2)⟩]).getD m dummyNode).parents.2 < (m : Int)
    have hm2 : m < ns.length + 2 := by simpa using hm
    by_cases hmlt : m < ns.length
    · rw [List.getD_append ns _ dummyNode m hmlt]
      exact hpar m hmlt
    · by_cases hmeq : m = ns.length
      · subst hmeq
        rw [getD_append_two_left]
        constructor <;> · show (-1 : Int) < (ns.length : Int); omega
      · have hmeq2 : m = ns.length + 1 := by omega
        subst hmeq2
        rw [getD_append_two_self]
        constructor
        · show p1 < ((ns.length + 1 : Nat) : Int)
          omega
        · show p2 < ((ns.length + 1 : Nat) : Int)
          omega
  · intro p hp hopn
    have hp2' : p < ns.length + 2 := by simpa using hp
    by_cases hplt : p < ns.length
    · rw [List.getD_append ns _ dummyNode p hplt] at hopn
      obtain ⟨q, hq, ho, hg, hpp, henvq, hparq⟩ := horph p hplt hopn
      have hqlt : q < ns.length := by omega
      refine ⟨q, hq, ?_, ?_, ?_, ?_, ?_⟩
      · rw [List.getD_append ns _ dummyNode q hqlt]; exact ho
      · rw [List.getD_append ns _ dummyNode q hqlt]; exact hg
      · rw [List.getD_append ns _ dummyNode q hqlt]; exact hpp
      · intro h2 hmem
        rcases List.mem_append.mp hmem with hold | hnew
        · exact henvq h2 hold
        · rw [List.mem_singleton.mp hnew]
          show (ns.length : Int) + 1 ≠ (q : Int)
          omega
      · intro m hm
        have hm2 : m < ns.length + 2 := by simpa using hm
        by_cases hmlt : m < ns.length
        · rw [List.getD_append ns _ dummyNode m hmlt]
          exact hparq m hmlt
        · by_cases hmeq : m = ns.length
          · subst hmeq
            rw [getD_append_two_left]
            constructor <;> · show (-1 : Int) ≠ (q : Int); omega
          · have hmeq2 : m = ns.length + 1 := by omega
            subst hmeq2
            rw [getD_append_two_self]
            constructor
            · show p1 ≠ (q : Int)
              rcases hp1 with h | ⟨h2, hm2', h⟩
              · omega
              · rw [h]
                exact henvq h2 hm2'
            · show p2 ≠ (q : Int)
              rcases hp2 with h | ⟨h2, hm2', h⟩
              · omega
              · rw [h]
                exact henvq h2 hm2'
    · by_cases hpeq : p = ns.length
      · subst hpeq
        rw [getD_append_two_left] at hopn
        exact absurd rfl hopn
      · have hpeq2 : p = ns.length + 1 := by omega
        subst hpeq2
        refine ⟨ns.length, rfl, ?_, ?_, ?_, ?_, ?_⟩
        · rw [getD_append_two_left]
        · rw [getD_append_two_left]
        · rw [getD_append_two_left]
        · intro h2 hmem
          rcases List.mem_append.mp hmem with hold | hnew
          · have hlt : h2.index < (ns.length : Int) := henv h2 hold
            omega
          · rw [List.mem_singleton.mp hnew]
            show (ns.length : Int) + 1 ≠ (ns.length : Int)
            omega
        · intro m hm
          have hm2 : m < ns.length + 2 := by simpa using hm
          by_cases hmlt : m < ns.length
          · rw [List.getD_append ns _ dummyNode m hmlt]
            have hp' : (ns.getD m dummyNode).parents.1 < (m : Int) ∧
                (ns.getD m dummyNode).parents.2 < (m : Int) := hpar m hmlt
            constructor <;> omega
          · by_cases hmeq : m = ns.length
            · subst hmeq
              rw [getD_append_two_left]
              constructor <;> · show (-1 : Int) ≠ (ns.length : Int); omega
            · have hmeq2 : m = ns.length + 1 := by omega
              subst hmeq2
              rw [getD_append_two_self]
              constructor
              · show p1 ≠ (ns.length : Int)
                omega
              · show p2 ≠ (ns.length : Int)
                omega

/-- A backward call preserves the invariant when its root handle is
untracked or comes from the environment. -/
theorem inv_backward (cosF : α → α) (t : Tape α) (env : List (ScalarVar α))
    (root : ScalarVar α) (hinv : TapeInv ⟨t, env⟩)
    (hridx : root.index = -1 ∨ ∃ h2 ∈ env, root.index = h2.index) :
    TapeInv ⟨gul_backward cosF root t, env⟩ := by
  obtain ⟨hact, henv, hpar, horph⟩ := hinv
  by_cases h0 : (0 : Int) ≤ root.index
  · rw [gul_backward, if_pos h0]
    have hSS := gul_run_backward_sameStruct cosF root.index t
    have hlen : (gul_run_backward cosF root.index t).nodes.length =
      t.nodes.length := hSS.1.1
    refine ⟨by rw [hSS.2]; exact hact, ?_, ?_, ?_⟩
    · intro h2 hmem
      show h2.index < ((gul_run_backward cosF root.index t).nodes.length : Int)
      rw [hlen]
      exact henv h2 hmem
    · intro m hm
      rw [hlen] at hm
      rw [(hSS.1.2 m).2.2]
      exact hpar m hm
    · intro p hp hopn
      rw [hlen] at hp
      rw [(hSS.1.2 p).1] at hopn
      obtain ⟨q, hq, ho, hg, hpp, henvq, hparq⟩ := horph p hp hopn
      have hrq : root.index ≠ (q : Int) := by
        rcases hridx with h | ⟨h2, hm2, h⟩
        · omega
        · rw [h]
          exact henvq h2 hm2
      have hparall : ∀ m : Nat,
          (t.nodes.getD m dummyNode).parents.1 ≠ (q : Int) ∧
          (t.nodes.getD m dummyNode).parents.2 ≠ (q : Int) := by
        intro m
        by_cases hmlt : m < t.nodes.length
        · exact hparq m hmlt
        · rw [getD_len_ge t.nodes m (by omega)]
          constructor <;> · show (-1 : Int) ≠ (q : Int); omega
      have hfix := gul_run_backward_getD_ne cosF root.index t q hrq hparall
      refine ⟨q, hq, ?_, ?_, ?_, henvq, ?_⟩
      · rw [hfix]; exact ho
      · rw [hfix]; exact hg
      · rw [hfix]; exact hpp
      · intro m hm
        rw [hlen] at hm
        rw [(hSS.1.2 m).2.2]
        exact hparq m hm
  · rw [gul_backward, if_neg h0]
    exact ⟨hact, henv, hpar, horph⟩

end Stdlib

namespace Stdlib

variable {α : Type} [Field α] [DecidableEq α]

/-- An environment reference is either the untracked default handle or a
member of the environment. -/
theorem env_ref_index_cases (env : List (ScalarVar α)) (i : Nat) :
    (env.getD i ⟨0, -1⟩).index = -1 ∨
      ∃ h2 ∈ env, (env.getD i ⟨0, -1⟩).index = h2.index := by
  by_cases h : i < env.length
  · right
    refine ⟨env.getD i ⟨0, -1⟩, ?_, rfl⟩
    rw [List.getD_eq_getElem env ⟨0, -1⟩ h]
    exact List.getElem_mem h
  · left
    rw [List.getD_eq_default env ⟨0, -1⟩ (by omega)]

/-- One API call preserves the single-session invariant. -/
theorem stepAct_inv (cap : Nat) (cosF sinF : α → α) (st : TraceState α)
    (a : Act α) (hinv : TapeInv st) : TapeInv (stepAct cap cosF sinF st a) := by
  obtain ⟨⟨ns, act⟩, env⟩ := st
  have hact : act = true := hinv.1
  subst hact
  cases a with
  | makeVar v =>
      show TapeInv ⟨(gul_make_var cap v ⟨ns, true⟩).2,
        env ++ [(gul_make_var cap v ⟨ns, true⟩).1]⟩
      by_cases hfull : cap ≤ ns.length
      · rw [gul_make_var_active_full cap v ⟨ns, true⟩ rfl hfull]
        exact inv_no_append ns env v hinv
      · rw [gul_make_var_active cap v ⟨ns, true⟩ rfl (show ns.length < cap by omega)]
        exact inv_append_leaf ns env v v _ hinv (Or.inr rfl)
  | addV i j =>
      show TapeInv ⟨(gul_var_add cap (env.getD i ⟨0, -1⟩) (env.getD j ⟨0, -1⟩)
          ⟨ns, true⟩).2,
        env ++ [(gul_var_add cap (env.getD i ⟨0, -1⟩) (env.getD j ⟨0, -1⟩)
          ⟨ns, true⟩).1]⟩
      by_cases hfull : cap ≤ ns.length
      · rw [gul_var_add_full cap _ _ ⟨ns, true⟩ rfl hfull]
        exact inv_no_append ns env _ hinv
      · by_cases hroom : ns.length + 1 < cap
        · by_cases hab : (0 : Int) ≤ (env.getD i ⟨0, -1⟩).index ∧
              (0 : Int) ≤ (env.getD j ⟨0, -1⟩).index
          · rw [(gul_var_add_active_cases cap _ _ ⟨ns, true⟩ rfl hroom).1 hab]
            exact inv_append_two ns env _ _ OpType.OP_ADD _ _ hinv
              (by decide) (env_ref_index_cases env i) (env_ref_index_cases env j)
          · rw [(gul_var_add_active_cases cap _ _ ⟨ns, true⟩ rfl hroom).2 hab]
            exact inv_append_leaf ns env _ _ _ hinv (Or.inr rfl)
        · have hone : cap = ns.length + 1 := by omega
          by_cases hab : (0 : Int) ≤ (env.getD i ⟨0, -1⟩).index ∧
              (0 : Int) ≤ (env.getD j ⟨0, -1⟩).index
          · rw [(gul_var_add_one_slot cap _ _ ⟨ns, true⟩ rfl hone).1 hab]
            exact inv_append_leaf ns env _ _ _ hinv (Or.inl rfl)
          · rw [(gul_var_add_one_slot cap _ _ ⟨ns, true⟩ rfl hone).2 hab]
            exact inv_append_leaf ns env _ _ _ hinv (Or.inr rfl)
  | mulV i j =>
      show TapeInv ⟨(gul_var_mul cap (env.getD i ⟨0, -1⟩) (env.getD j ⟨0, -1⟩)
          ⟨ns, true⟩).2,
        env ++ [(gul_var_mul cap (env.getD i ⟨0, -1⟩) (env.getD j ⟨0, -1⟩)
          ⟨ns, true⟩).1]⟩
      by_cases hfull : cap ≤ ns.length
      · rw [gul_var_mul_full cap _ _ ⟨ns, true⟩ rfl hfull]
        exact inv_no_append ns env _ hinv
      · by_cases hroom : ns.length + 1 < cap
        · by_cases hab : (0 : Int) ≤ (env.getD i ⟨0, -1⟩).index ∧
              (0 : Int) ≤ (env.getD j ⟨0, -1⟩).index
          · rw [(gul_var_mul_active_cases cap _ _ ⟨ns, true⟩ rfl hroom).1 hab]
            exact inv_append_two ns env _ _ OpType.OP_MUL _ _ hinv
              (by decide) (env_ref_index_cases env i) (env_ref_index_cases env j)
          · rw [(gul_var_mul_active_cases cap _ _ ⟨ns, true⟩ rfl hroom).2 hab]
            exact inv_append_leaf ns env _ _ _ hinv (Or.inr rfl)
        · have hone : cap = ns.length + 1 := by omega
          by_cases hab : (0 : Int) ≤ (env.getD i ⟨0, -1⟩).index ∧
              (0 : Int) ≤ (env.getD j ⟨0, -1⟩).index
          · rw [(gul_var_mul_one_slot cap _ _ ⟨ns, true⟩ rfl hone).1 hab]
            exact inv_append_leaf ns env _ _ _ hinv (Or.inl rfl)
          · rw [(gul_var_mul_one_slot cap _ _ ⟨ns, true⟩ rfl hone).2 hab]
            exact inv_append_leaf ns env _ _ _ hinv (Or.inr rfl)
  | sinV i =>
      show TapeInv ⟨(gul_var_sin cap sinF (env.getD i ⟨0, -1⟩) ⟨ns, true⟩).2,
        env ++ [(gul_var_sin cap sinF (env.getD i ⟨0, -1⟩) ⟨ns, true⟩).1]⟩
      by_cases hfull : cap ≤ ns.length
      · rw [gul_var_sin_full cap sinF _ ⟨ns, true⟩ rfl hfull]
        exact inv_no_append ns env _ hinv
      · by_cases hroom : ns.length + 1 < cap
        · by_cases ha : (0 : Int) ≤ (env.getD i ⟨0, -1⟩).index
          · rw [(gul_var_sin_active_cases cap sinF _ ⟨ns, true⟩ rfl hroom).1 ha]
            exact inv_append_two ns env _ _ OpType.OP_SIN _ _ hinv
              (by decide) (env_ref_index_cases env i) (Or.inl rfl)
          · rw [(gul_var_sin_active_cases cap sinF _ ⟨ns, true⟩ rfl hroom).2 ha]
            exact inv_append_leaf ns env _ _ _ hinv (Or.inr rfl)
        · have hone : cap = ns.length + 1 := by omega
          by_cases ha : (0 : Int) ≤ (env.getD i ⟨0, -1⟩).index
          · rw [(gul_var_sin_one_slot cap sinF _ ⟨ns, true⟩ rfl hone).1 ha]
            exact inv_append_leaf ns env _ _ _ hinv (Or.inl rfl)
          · rw [(gul_var_sin_one_slot cap sinF _ ⟨ns, true⟩ rfl hone).2 ha]
            exact inv_append_leaf ns env _ _ _ hinv (Or.inr rfl)
  | backwardV i =>
      show TapeInv ⟨gul_backward cosF (env.getD i ⟨0, -1⟩) ⟨ns, true⟩, env⟩
      exact inv_backward cosF ⟨ns, true⟩ env _ hinv (env_ref_index_cases env i)

/-- The invariant holds right after gul_autograd_begin. -/
theorem TapeInv_init :
    TapeInv (⟨gul_autograd_begin (initTape (α := α)), []⟩ : TraceState α) := by
  refine ⟨rfl, ?_, ?_, ?_⟩
  · intro h2 hmem
    simp at hmem
  · intro m hm
    have : m < 0 := hm
    omega
  · intro p hp hop
    have : p < 0 := hp
    omega

/-- The invariant holds after every single-session call sequence. -/
theorem TapeInv_runActs (cap : Nat) (cosF sinF : α → α)
    (acts : List (Act α)) : TapeInv (runActs cap cosF sinF acts) := by
  have main : ∀ (l : List (Act α)) (st : TraceState α), TapeInv st →
      TapeInv (List.foldl (stepAct cap cosF sinF) st l) := by
    intro l
    induction l with
    | nil => intro st h; simpa using h
    | cons a l ih =>
        intro st h
        simp only [List.foldl]
        exact ih _ (stepAct_inv cap cosF sinF st a h)
  exact main acts _ TapeInv_init

end Stdlib

/-- C10: in the flat-tape implementation every tracked operator call
(gul_var_add, gul_var_mul, gul_var_sin) appends two nodes, not one: the
inner gul_make_var first appends an OP_NONE leaf whose index the call
then overwrites with the operation node's index (the orphan's index +
1), so each tracked operator application consumes two units of session
capacity; and over every single-session call sequence the orphan keeps
gradient 0 forever — no handle and no node's parent entry ever refers to
it, and backward calls only ever write to the root handle's index and to
parent indices (TapeInv below packages exactly these invariants). -/
theorem C10_tracked_ops_append_two_nodes {α : Type} [Field α] [DecidableEq α]
    (cap cap2 : Nat) (cosF sinF : α → α) (acts : List (Stdlib.Act α))
    (a b : Stdlib.ScalarVar α) (t : Stdlib.Tape α)
    (hact : t.active = true) (hroom : t.nodes.length + 1 < cap2) :
    Stdlib.TapeInv (Stdlib.runActs cap cosF sinF acts) ∧
    ((0 ≤ a.index ∧ 0 ≤ b.index) →
      Stdlib.gul_var_add cap2 a b t =
        ({ value := a.value + b.value, index := (t.nodes.length : Int) + 1 },
         { nodes := t.nodes ++
            [{ op := Stdlib.OpType.OP_NONE, value := a.value + b.value,
               grad := 0, parents := (-1, -1) },
             { op := Stdlib.OpType.OP_ADD, value := a.value + b.value,
               grad := 0, parents := (a.index, b.index) }],
           active := true })) ∧
    ((0 ≤ a.index ∧ 0 ≤ b.index) →
      Stdlib.gul_var_mul cap2 a b t =
        ({ value := a.value * b.value, index := (t.nodes.length : Int) + 1 },
         { nodes := t.nodes ++
            [{ op := Stdlib.OpType.OP_NONE, value := a.value * b.value,
               grad := 0, parents := (-1, -1) },
             { op := Stdlib.OpType.OP_MUL, value := a.value * b.value,
               grad := 0, parents := (a.index, b.index) }],
           active := true })) ∧
    (0 ≤ a.index →
      Stdlib.gul_var_sin cap2 sinF a t =
        ({ value := sinF a.value, index := (t.nodes.length : Int) + 1 },
         { nodes := t.nodes ++
            [{ op := Stdlib.OpType.OP_NONE, value := sinF a.value,
               grad := 0, parents := (-1, -1) },
             { op := Stdlib.OpType.OP_SIN, value := sinF a.value,
               grad := 0, parents := (a.index, -1) }],
           active := true })) :=
  ⟨Stdlib.TapeInv_runActs cap cosF sinF acts,
   (Stdlib.gul_var_add_active_cases cap2 a b t hact hroom).1,
   (Stdlib.gul_var_mul_active_cases cap2 a b t hact hroom).1,
   (Stdlib.gul_var_sin_active_cases cap2 sinF a t hact hroom).1⟩

/-- C10 witness: the invariant on a concrete three-call session, and the
two-node append for a concrete tracked add. -/
theorem C10_tracked_ops_witness :
    Stdlib.TapeInv (Stdlib.runActs 10000 (fun q : ℚ => q) (fun q => q)
      [Stdlib.Act.makeVar 1, Stdlib.Act.makeVar 2, Stdlib.Act.addV 0 1]) ∧
    Stdlib.gul_var_add 10 { value := (2 : ℚ), index := 0 }
        { value := 3, index := 1 } { nodes := [], active := true } =
      ({ value := 2 + 3, index := 1 },
       { nodes :=
          [{ op := Stdlib.OpType.OP_NONE, value := 2 + 3, grad := 0,
             parents := (-1, -1) },
           { op := Stdlib.OpType.OP_ADD, value := 2 + 3, grad := 0,
             parents := (0, 1) }],
         active := true }) := by
  have h := C10_tracked_ops_append_two_nodes (α := ℚ) 10000 10
    (fun q => q) (fun q => q)
    [Stdlib.Act.makeVar 1, Stdlib.Act.makeVar 2, Stdlib.Act.addV 0 1]
    { value := (2 : ℚ), index := 0 } { value := 3, index := 1 }
    { nodes := [], active := true } rfl (by norm_num)
  refine ⟨h.1, ?_⟩
  have h2 := h.2.1 ⟨by norm_num, by norm_num⟩
  simpa using h2
